import Mathlib

/-!
Verification development for the tracer event loop of the apm-agent-go
repository (src/tracer.go).

The Go code is shallowly embedded: the single-threaded tracer loop body
becomes a pure step function on an explicit state record, the subordinate
send goroutine and the metrics-gather cycle become separate labelled
transitions of a small transition system, and machine concerns that live
outside src/ (the ring buffer, the grace-period helpers, the stats
accumulator) are modelled from the specification where noted.

Durations are integers in an abstract unit; compressed output sizes are
oracle data attached to each block (the zlib compressor is an external
collaborator, so the number of bytes it emits per write is a parameter of
the embedding, not something computed here).
-/

/-- Block tags, from the block tag constants used in src/tracer.go
(transactionBlockTag, spanBlockTag, errorBlockTag and the metrics tag). -/
inductive BlockTag where
  | transaction
  | span
  | error
  | metrics
deriving DecidableEq, Repr

/-- A serialized block stored in a ring buffer.  `size` is the encoded
(uncompressed) length in bytes; `compSize` is the number of bytes the zlib
writer emits into requestBuf when this block and its trailing newline are
written (oracle data standing for the external compressor). -/
structure Block where
  tag : BlockTag
  size : Nat
  compSize : Nat
deriving DecidableEq, Repr

/-- Modelled from the spec: `TracerStats` is repository code not under
src/ (the spec lists "monotonically accumulating counters (sent/dropped
counts per category, send-error count)"); the field set matches the
counters mutated in src/tracer.go (ErrorsSent, ErrorsDropped,
TransactionsSent, TransactionsDropped, SpansSent, SpansDropped,
Errors.SendStream). -/
structure TracerStats where
  errorsSent : Nat := 0
  errorsDropped : Nat := 0
  transactionsSent : Nat := 0
  transactionsDropped : Nat := 0
  spansSent : Nat := 0
  spansDropped : Nat := 0
  sendStreamErrors : Nat := 0
deriving DecidableEq, Repr

/-- Modelled from the spec: `TracerStats.accumulate` is repository code not
under src/; the spec says every update "merges a local accumulator by
addition". -/
def TracerStats.accumulate (s d : TracerStats) : TracerStats where
  errorsSent := s.errorsSent + d.errorsSent
  errorsDropped := s.errorsDropped + d.errorsDropped
  transactionsSent := s.transactionsSent + d.transactionsSent
  transactionsDropped := s.transactionsDropped + d.transactionsDropped
  spansSent := s.spansSent + d.spansSent
  spansDropped := s.spansDropped + d.spansDropped
  sendStreamErrors := s.sendStreamErrors + d.sendStreamErrors

/-- Modelled from the spec: `TracerStats.isZero` is repository code not
under src/; src/tracer.go uses it to decide whether to merge the local
accumulator into the shared stats. -/
def TracerStats.isZero (s : TracerStats) : Bool :=
  s.errorsSent = 0 && s.errorsDropped = 0 && s.transactionsSent = 0 &&
  s.transactionsDropped = 0 && s.spansSent = 0 && s.spansDropped = 0 &&
  s.sendStreamErrors = 0

/-- Componentwise order on stats, used to state monotonicity of the
externally visible counters. -/
def TracerStats.le (s d : TracerStats) : Prop :=
  s.errorsSent ≤ d.errorsSent ∧ s.errorsDropped ≤ d.errorsDropped ∧
  s.transactionsSent ≤ d.transactionsSent ∧
  s.transactionsDropped ≤ d.transactionsDropped ∧
  s.spansSent ≤ d.spansSent ∧ s.spansDropped ≤ d.spansDropped ∧
  s.sendStreamErrors ≤ d.sendStreamErrors

instance : DecidablePred (fun p : TracerStats × TracerStats => TracerStats.le p.1 p.2) :=
  fun _ => by unfold TracerStats.le; infer_instance

theorem TracerStats.le_refl (s : TracerStats) : TracerStats.le s s := by
  unfold TracerStats.le; omega

theorem TracerStats.le_trans {a b c : TracerStats}
    (h1 : TracerStats.le a b) (h2 : TracerStats.le b c) : TracerStats.le a c := by
  unfold TracerStats.le at *; omega

theorem TracerStats.le_accumulate (s d : TracerStats) :
    TracerStats.le s (TracerStats.accumulate s d) := by
  unfold TracerStats.le TracerStats.accumulate; dsimp; omega

/-- Per-tag dropped-counter bump: the eviction callback installed on the
trace ring buffer in src/tracer.go lines 573 to 582. -/
def bumpDropped (tag : BlockTag) (s : TracerStats) : TracerStats :=
  match tag with
  | .error => { s with errorsDropped := s.errorsDropped + 1 }
  | .span => { s with spansDropped := s.spansDropped + 1 }
  | .transaction => { s with transactionsDropped := s.transactionsDropped + 1 }
  | .metrics => s

theorem le_bumpDropped (tag : BlockTag) (s : TracerStats) :
    TracerStats.le s (bumpDropped tag s) := by
  cases tag <;> unfold TracerStats.le bumpDropped <;> dsimp <;> omega

/-- Modelled from the spec: the ring buffer lives in the internal
ringbuffer package, not under src/.  Spec contract (section 4.1): a
fixed-capacity FIFO store of blocks; insertion always succeeds, evicting
oldest blocks until space is available, reporting each eviction through a
callback; WriteBlockTo removes and writes the oldest block; Len reports
occupied bytes. -/
structure RingBuffer where
  capacity : Nat
  blocks : List Block
deriving DecidableEq, Repr

/-- Occupied bytes of the buffer (the Len contract of section 4.1). -/
def RingBuffer.lenBytes (rb : RingBuffer) : Nat :=
  (rb.blocks.map Block.size).sum

/-- Oldest-first eviction until the new block fits, bumping the dropped
counters through the eviction callback (the trace buffer instance). -/
def evictFor (needed cap : Nat) : List Block → TracerStats → List Block × TracerStats
  | [], st => ([], st)
  | b :: rest, st =>
      if ((b :: rest).map Block.size).sum + needed > cap then
        evictFor needed cap rest (bumpDropped b.tag st)
      else (b :: rest, st)

/-- Insert with eviction accounting (trace buffer: the Evicted callback is
installed, src/tracer.go lines 573 to 582). -/
def RingBuffer.insertCounting (rb : RingBuffer) (b : Block) (st : TracerStats) :
    RingBuffer × TracerStats :=
  let p := evictFor b.size rb.capacity rb.blocks st
  ({ rb with blocks := p.1 ++ [b] }, p.2)

/-- Oldest-first eviction without accounting (the metrics buffer instance
has no Evicted callback installed in src/tracer.go). -/
def evictForPlain (needed cap : Nat) : List Block → List Block
  | [] => []
  | b :: rest =>
      if ((b :: rest).map Block.size).sum + needed > cap then
        evictForPlain needed cap rest
      else b :: rest

/-- Insert without eviction accounting (metrics buffer). -/
def RingBuffer.insertPlain (rb : RingBuffer) (b : Block) : RingBuffer :=
  { rb with blocks := evictForPlain b.size rb.capacity rb.blocks ++ [b] }

/-- Modelled from the spec: the first escalation step of the grace-period
ladder, in abstract duration units. -/
def initialGracePeriod : Int := 1

/-- Modelled from the spec: the configured maximum of the grace-period
ladder, in abstract duration units. -/
def maxGracePeriod : Int := 36

/-- Modelled from the spec: `nextGracePeriod` is repository code not under
src/.  The spec says the retry grace period advances by "doubling-style
escalation ... capped at a maximum"; a negative argument encodes the
no-grace-period state used by src/tracer.go (initial value -1, reset to -1
after a successful send). -/
def nextGracePeriod (p : Int) : Int :=
  if p ≤ 0 then initialGracePeriod else min (2 * p) maxGracePeriod

/-- Modelled from the spec: `jitterDuration` is repository code not under
src/.  The spec says a plus-or-minus 10 percent random jitter is applied
at send time; `j` is the random fraction drawn from the interval
[-frac, frac] by the send goroutine. -/
def jitterDuration (d j : ℚ) : ℚ := d + d * j

/-- The delay the send goroutine applies before a send, from src/tracer.go
lines 548 to 554: a positive grace period is jittered and slept; zero or
negative grace periods produce no delay. -/
def senderDelay (gp : Int) (j : ℚ) : ℚ :=
  if 0 < gp then jitterDuration (gp : ℚ) j else 0

/-- Log severities distinguished by the loop (Debugf vs Errorf). -/
inductive LogSeverity where
  | debug
  | errorLevel
deriving DecidableEq, Repr

/-- Transport send outcome carried by requestResult; an HTTP error carries
its response status code (transport.HTTPError in the source). -/
inductive SendError where
  | http (status : Nat)
  | generic
deriving DecidableEq, Repr

/-- One gathered metrics entry: a collection timestamp plus the serialized
block the model writer will insert into the metrics buffer. -/
structure MetricsEntry where
  timestamp : Int
  block : Block
deriving DecidableEq, Repr

/-- The mutable tracer configuration owned by the loop (tracerConfig in
src/tracer.go lines 312 to 322), restricted to the fields the claims
exercise.  A metrics gatherer is abstracted by the list of entries it
contributes when invoked (the spec treats gatherers as an abstract
populate-a-snapshot capability). -/
structure TracerConfigM where
  requestSize : Nat
  requestDuration : Int
  metricsInterval : Int
  loggerPresent : Bool
  metricsGatherers : List (List MetricsEntry)
deriving DecidableEq, Repr

/-- A configuration command: the closure sent on configCommands, modelled
as a record of optional field overrides applied in receipt order. -/
structure ConfigCmd where
  requestSize : Option Nat := none
  requestDuration : Option Int := none
  metricsInterval : Option Int := none
  loggerPresent : Option Bool := none
  metricsGatherers : Option (List (List MetricsEntry)) := none
deriving DecidableEq, Repr

/-- Apply a configuration command to the loop configuration. -/
def applyCmd (c : ConfigCmd) (cfg : TracerConfigM) : TracerConfigM where
  requestSize := c.requestSize.getD cfg.requestSize
  requestDuration := c.requestDuration.getD cfg.requestDuration
  metricsInterval := c.metricsInterval.getD cfg.metricsInterval
  loggerPresent := c.loggerPresent.getD cfg.loggerPresent
  metricsGatherers := c.metricsGatherers.getD cfg.metricsGatherers

/-- The category of an ingested record (transactionEvent, spanEvent,
errorEvent in src/tracer.go lines 889 to 893). -/
inductive IngestKind where
  | transaction
  | span
  | error
deriving DecidableEq, Repr

/-- Block tag the model writer attaches to each ingested category. -/
def IngestKind.tag : IngestKind → BlockTag
  | .transaction => .transaction
  | .span => .span
  | .error => .error

/-- An ingested finished record: its category, encoded length, and the
compressed-output oracle for its block. -/
structure IngestEvent where
  kind : IngestKind
  size : Nat
  compSize : Nat
deriving DecidableEq, Repr

/-- Oracle for the external zlib compressor: bytes emitted into requestBuf
when the metadata header is written, when the stream is closed, and when
it is flushed, plus the uncompressed length of the metadata header. -/
structure ZlibOracle where
  metadataOut : Nat
  metadataLen : Nat
  closeOut : Nat
  flushOut : Nat
deriving DecidableEq, Repr

/-- State of one metrics-gather cycle: idle, running (with the shared
collection timestamp taken at the start of the cycle and the captured
gatherer contributions), or finished with its completion signal not yet
consumed by the loop. -/
inductive GatherState where
  | idle
  | running (ts : Int) (contribs : List (List MetricsEntry))
  | done
deriving DecidableEq, Repr

/-- The full state of the tracer loop, its channels, and its subordinate
tasks: the local variables of Tracer.loop (src/tracer.go lines 515 to
588), the send-goroutine occupancy, the requestResult channel content, the
gather-cycle state, and two ghost counters used to state the
single-in-flight invariants. -/
structure LoopState where
  cfg : TracerConfigM
  gracePeriod : Int
  flushedPending : Bool
  sentMetricsPending : Bool
  rbTransactions : Nat
  rbSpans : Nat
  rbErrors : Nat
  rbMetricsets : Nat
  zlibFlushed : Bool
  zlibClosed : Bool
  requestBuf : Nat
  uncompressedWritten : Nat
  requestBytesRead : Nat
  requestActive : Bool
  closeRequest : Bool
  flushRequest : Bool
  requestTimerActive : Bool
  metadataCached : Bool
  metricsTimerRunning : Bool
  gatheringMetrics : Bool
  metrics : List MetricsEntry
  buffer : RingBuffer
  metricsBuffer : RingBuffer
  statsLocal : TracerStats
  statsShared : TracerStats
  reqBufCap : Option Nat
  senderBusy : Bool
  resultPending : Option (Option SendError)
  gather : GatherState
  terminated : Bool
  sendsOutstanding : Nat
  gathersOutstanding : Nat
deriving DecidableEq, Repr

/-- Externally observable actions of one loop iteration. -/
structure Effects where
  signaledSend : Option Int := none
  startedGather : Bool := false
  canceledContext : Bool := false
  closedReadEOF : Bool := false
  flushedAck : Bool := false
  sentMetricsAck : Bool := false
  logSeverity : Option LogSeverity := none
deriving DecidableEq, Repr

/-- The event serviced by one loop iteration: one case of the select in
src/tracer.go lines 592 to 744. -/
inductive LoopEvent where
  | closing
  | configCmd (c : ConfigCmd)
  | ingest (e : IngestEvent)
  | requestTimerFire
  | metricsTimerFire
  | forceSendMetrics
  | gatheredSignal
  | forceFlush (queued : List IngestEvent)
  | readRequest (cap : Nat)
  | result (err : Option SendError)
deriving DecidableEq, Repr

/-- Merge the local stats accumulator into the shared stats under the
stats lock when it is nonzero (src/tracer.go lines 709 to 714 and 746 to
751). -/
def mergeStatsL (s : LoopState) : LoopState :=
  if s.statsLocal.isZero then s
  else { s with statsShared := s.statsShared.accumulate s.statsLocal, statsLocal := {} }

/-- Model-writer insertion of one ingested record into the trace buffer
(serialization abstracted; eviction accounting through the Evicted
callback of src/tracer.go lines 573 to 582). -/
def writeIngest (e : IngestEvent) (s : LoopState) : LoopState :=
  let p := s.buffer.insertCounting ⟨e.kind.tag, e.size, e.compSize⟩ s.statsLocal
  { s with buffer := p.1, statsLocal := p.2 }

/-- The events branch (src/tracer.go lines 623 to 633): write the record;
an error additionally requests a stream flush so it is transmitted
immediately. -/
def ingestBranch (e : IngestEvent) (s : LoopState) : LoopState :=
  let s := writeIngest e s
  match e.kind with
  | .error => { s with flushRequest := true }
  | _ => s

/-- Metrics-timer rearming after a configuration command (src/tracer.go
lines 600 to 621): when no gather cycle is outstanding and the metrics
interval changed, start the timer if it was stopped and the new interval
is positive, and stop it if it was running and the new interval is not
positive. -/
def configTimerAdjust (oldInterval : Int) (s : LoopState) : LoopState :=
  if s.gatheringMetrics = false ∧ s.cfg.metricsInterval ≠ oldInterval then
    if s.metricsTimerRunning = false then
      (if s.cfg.metricsInterval > 0 then { s with metricsTimerRunning := true } else s)
    else
      (if s.cfg.metricsInterval ≤ 0 then { s with metricsTimerRunning := false } else s)
  else s

/-- The configCommands branch (src/tracer.go lines 597 to 622): apply the
command, then rearm, start or stop the metrics timer. -/
def configBranch (c : ConfigCmd) (s0 : LoopState) : LoopState :=
  configTimerAdjust s0.cfg.metricsInterval { s0 with cfg := applyCmd c s0.cfg }

/-- Outcome accounting of the requestResult branch (src/tracer.go lines
675 to 708): consume the deposited result; on failure bump the send-error
counter, escalate the grace period and log (error severity for an HTTP 404
response, debug otherwise); on success reset the grace period and add the
per-category counts accumulated while streaming to the sent counters. -/
def resultAccount (s0 : LoopState) (err : Option SendError) : LoopState × Effects :=
  match err with
  | some e =>
      ({ s0 with
          resultPending := none,
          statsLocal := { s0.statsLocal with
            sendStreamErrors := s0.statsLocal.sendStreamErrors + 1 },
          gracePeriod := nextGracePeriod s0.gracePeriod },
       { logSeverity :=
           if s0.cfg.loggerPresent then
             some (match e with
               | .http 404 => LogSeverity.errorLevel
               | _ => LogSeverity.debug)
           else none })
  | none =>
      ({ s0 with
          resultPending := none,
          gracePeriod := -1,
          statsLocal := { s0.statsLocal with
            transactionsSent := s0.statsLocal.transactionsSent + s0.rbTransactions,
            spansSent := s0.statsLocal.spansSent + s0.rbSpans,
            errorsSent := s0.statsLocal.errorsSent + s0.rbErrors } },
       { logSeverity := if s0.cfg.loggerPresent then some LogSeverity.debug else none })

/-- Merge the local stats into the shared stats, carrying effects along. -/
def mergePair (p : LoopState × Effects) : LoopState × Effects :=
  (mergeStatsL p.1, p.2)

/-- Acknowledge a pending forced metrics send, but only when the finished
request carried at least one metricset (src/tracer.go lines 715 to 718). -/
def resultAckMetrics (p : LoopState × Effects) : LoopState × Effects :=
  if p.1.sentMetricsPending = true ∧ p.1.rbMetricsets > 0 then
    ({ p.1 with sentMetricsPending := false }, { p.2 with sentMetricsAck := true })
  else p

/-- Acknowledge a pending forced flush, on success and failure alike
(src/tracer.go lines 719 to 722). -/
def resultAckFlush (p : LoopState × Effects) : LoopState × Effects :=
  if p.1.flushedPending then
    ({ p.1 with flushedPending := false }, { p.2 with flushedAck := true })
  else p

/-- Reset of the request lifecycle state to Idle after a result, recycling
the stream reader (src/tracer.go lines 723 to 743). -/
def resultReset (p : LoopState × Effects) : LoopState × Effects :=
  ({ p.1 with
      reqBufCap := none,
      flushRequest := false, closeRequest := false, requestActive := false,
      requestBytesRead := 0, requestBuf := 0, uncompressedWritten := 0,
      rbTransactions := 0, rbSpans := 0, rbErrors := 0, rbMetricsets := 0,
      requestTimerActive := false },
   { p.2 with closedReadEOF := true })

/-- The requestResult branch (src/tracer.go lines 675 to 743): account the
outcome, merge stats, deliver pending acknowledgments, and reset the
request lifecycle state to Idle. -/
def resultBranch (s0 : LoopState) (err : Option SendError) : LoopState × Effects :=
  resultReset (resultAckFlush (resultAckMetrics (mergePair (resultAccount s0 err))))

/-- Total number of blocks available to the streaming loop, used as fuel
(each iteration that recurses removes exactly one block). -/
def blocksTotal (s : LoopState) : Nat :=
  s.metricsBuffer.blocks.length + s.buffer.blocks.length

/-- The streaming inner loop of src/tracer.go lines 780 to 810: while the
bytes measure requestBytesRead + requestBuf.Len() is below the configured
request size, pull the oldest block from the metrics buffer if it has one
(marking the request for closing when a forced metrics send is pending),
otherwise from the trace buffer, compressing each block plus a newline
into requestBuf and bumping the per-category counter.  `uncompressedWritten`
is a ghost tally of the uncompressed bytes handed to the compressor. -/
def streamLoopF : Nat → LoopState → LoopState
  | 0, s => s
  | fuel + 1, s =>
      if s.requestBytesRead + s.requestBuf < s.cfg.requestSize then
        match s.metricsBuffer.blocks with
        | b :: rest =>
            streamLoopF fuel { s with
              metricsBuffer := { s.metricsBuffer with blocks := rest },
              requestBuf := s.requestBuf + b.compSize,
              uncompressedWritten := s.uncompressedWritten + b.size + 1,
              rbMetricsets := s.rbMetricsets + 1,
              zlibFlushed := false,
              closeRequest := s.closeRequest || s.sentMetricsPending }
        | [] =>
            match s.buffer.blocks with
            | [] => s
            | b :: rest =>
                streamLoopF fuel { s with
                  buffer := { s.buffer with blocks := rest },
                  requestBuf := s.requestBuf + b.compSize,
                  uncompressedWritten := s.uncompressedWritten + b.size + 1,
                  rbTransactions :=
                    s.rbTransactions + (if b.tag = BlockTag.transaction then 1 else 0),
                  rbSpans := s.rbSpans + (if b.tag = BlockTag.span then 1 else 0),
                  rbErrors := s.rbErrors + (if b.tag = BlockTag.error then 1 else 0),
                  zlibFlushed := false }
      else s

/-- The size-ceiling check of src/tracer.go lines 811 to 813: mark the
request for closing when it is not already marked and the bytes measure
requestBytesRead + requestBuf.Len() has reached the configured request
size. -/
def streamClose (s2 : LoopState) : LoopState :=
  if s2.closeRequest then s2
  else { s2 with
    closeRequest := decide (s2.requestBytesRead + s2.requestBuf ≥ s2.cfg.requestSize) }

/-- The streaming phase: the inner loop followed by the size-ceiling
check. -/
def streamPhase (s : LoopState) : LoopState :=
  streamClose (streamLoopF (blocksTotal s) s)

/-- Follows the words of the claim (for the refinement comparison of C2):
the same streaming loop but with the request-size comparison performed
against the accumulated uncompressed bytes handed to the compressor, as
the specification describes it. -/
def specStreamLoopU : Nat → LoopState → LoopState
  | 0, s => s
  | fuel + 1, s =>
      if s.uncompressedWritten < s.cfg.requestSize then
        match s.metricsBuffer.blocks with
        | b :: rest =>
            specStreamLoopU fuel { s with
              metricsBuffer := { s.metricsBuffer with blocks := rest },
              requestBuf := s.requestBuf + b.compSize,
              uncompressedWritten := s.uncompressedWritten + b.size + 1,
              rbMetricsets := s.rbMetricsets + 1,
              zlibFlushed := false,
              closeRequest := s.closeRequest || s.sentMetricsPending }
        | [] =>
            match s.buffer.blocks with
            | [] => s
            | b :: rest =>
                specStreamLoopU fuel { s with
                  buffer := { s.buffer with blocks := rest },
                  requestBuf := s.requestBuf + b.compSize,
                  uncompressedWritten := s.uncompressedWritten + b.size + 1,
                  rbTransactions :=
                    s.rbTransactions + (if b.tag = BlockTag.transaction then 1 else 0),
                  rbSpans := s.rbSpans + (if b.tag = BlockTag.span then 1 else 0),
                  rbErrors := s.rbErrors + (if b.tag = BlockTag.error then 1 else 0),
                  zlibFlushed := false }
      else s

/-- Follows the words of the claim (for the refinement comparison of C2):
the closing mark driven by the uncompressed measure. -/
def specStreamCloseU (s2 : LoopState) : LoopState :=
  if s2.closeRequest then s2
  else { s2 with closeRequest := decide (s2.uncompressedWritten ≥ s2.cfg.requestSize) }

/-- Follows the words of the claim (for the refinement comparison of C2):
the streaming phase with the uncompressed measure deciding both the loop
guard and the closing mark. -/
def specStreamPhaseU (s : LoopState) : LoopState :=
  specStreamCloseU (specStreamLoopU (blocksTotal s) s)

/-- Start of a metrics-gather cycle (src/tracer.go lines 753 to 760): mark
gathering in flight and launch the cycle, capturing the registered
gatherers and the shared collection timestamp `now`. -/
def gatherStart (now : Int) (s : LoopState) : LoopState :=
  { s with gatheringMetrics := true,
           gather := GatherState.running now s.cfg.metricsGatherers,
           gathersOutstanding := s.gathersOutstanding + 1 }

/-- Opening a request (src/tracer.go lines 762 to 777): signal the send
goroutine with the current grace period, cache and compress the metadata
header, and start the request-duration timer. -/
def openRequest (Z : ZlibOracle) (s : LoopState) (eff : Effects) : LoopState × Effects :=
  ({ s with
      senderBusy := true,
      sendsOutstanding := s.sendsOutstanding + 1,
      metadataCached := true,
      requestBuf := s.requestBuf + Z.metadataOut,
      uncompressedWritten := Z.metadataLen,
      zlibFlushed := false,
      zlibClosed := false,
      requestActive := true,
      requestTimerActive := true },
   { eff with signaledSend := some s.gracePeriod })

/-- Closing or flushing the compressed stream (src/tracer.go lines 815 to
824). -/
def closeFlushPhase (Z : ZlibOracle) (s : LoopState) : LoopState :=
  if s.closeRequest then
    if s.zlibClosed then s
    else { s with requestBuf := s.requestBuf + Z.closeOut, zlibClosed := true }
  else
    if s.flushRequest = true ∧ s.zlibFlushed = false then
      { s with requestBuf := s.requestBuf + Z.flushOut,
               flushRequest := false, zlibFlushed := true }
    else s

/-- Serving a pending read request from the send goroutine (src/tracer.go
lines 826 to 840): once more than the two zlib header bytes exist, move up
to `cap` bytes out of requestBuf and account them in requestBytesRead. -/
def respondPhase (s : LoopState) : LoopState :=
  match s.reqBufCap with
  | none => s
  | some cap =>
      if s.requestBuf = 0 then s
      else if s.requestBytesRead + s.requestBuf > 2 then
        { s with reqBufCap := none,
                 requestBuf := s.requestBuf - min cap s.requestBuf,
                 requestBytesRead := s.requestBytesRead + min cap s.requestBuf }
      else s

/-- The streaming phase guarded as in src/tracer.go line 779: it runs
unless the request is already marked for closing with the compressor
already closed. -/
def streamGuard (s : LoopState) : LoopState :=
  if s.closeRequest = false ∨ s.zlibClosed = false then streamPhase s else s

/-- Tail of the shared post-select block once a request is active:
streaming, compressor close or flush, then serving a pending read request
(src/tracer.go lines 779 to 840). -/
def postTail (Z : ZlibOracle) (p : LoopState × Effects) : LoopState × Effects :=
  (respondPhase (closeFlushPhase Z (streamGuard p.1)), p.2)

/-- Opening part of the shared post-select block (src/tracer.go lines 762
to 777): when no request is active and both buffers are empty the
iteration continues; when no request is active and data is buffered a
request is opened; then the tail runs. -/
def postOpen (Z : ZlibOracle) (p : LoopState × Effects) : LoopState × Effects :=
  if p.1.requestActive = false ∧
      p.1.buffer.blocks = [] ∧ p.1.metricsBuffer.blocks = [] then p
  else
    postTail Z (if p.1.requestActive = false then openRequest Z p.1 p.2 else p)

/-- The shared tail of every non-continuing loop iteration (src/tracer.go
lines 746 to 840): merge stats, start a gather cycle when requested, open
a request when idle and data is buffered (or continue when idle and both
buffers are empty), stream buffered blocks, close or flush the compressor,
and serve a pending read request. -/
def postSelect (Z : ZlibOracle) (now : Int) (gatherFlag : Bool) (s0 : LoopState)
    (eff0 : Effects) : LoopState × Effects :=
  postOpen Z
    (if gatherFlag then (gatherStart now (mergeStatsL s0), { eff0 with startedGather := true })
     else (mergeStatsL s0, eff0))

/-- Insertion of the gathered metrics into the metrics buffer by the model
writer (writeMetrics), followed by resetting the snapshot. -/
def writeMetricsB (s : LoopState) : LoopState :=
  { s with
    metricsBuffer := s.metrics.foldl (fun rb e => rb.insertPlain e.block) s.metricsBuffer,
    metrics := [] }

/-- Loop-state updates of the gatheredMetrics branch after the gathered
snapshot is written out (src/tracer.go lines 648 to 655). -/
def gatheredApply (s : LoopState) : LoopState :=
  { s with gatheringMetrics := false,
           flushRequest := true,
           gather := GatherState.idle,
           gathersOutstanding := s.gathersOutstanding - 1,
           metricsTimerRunning :=
             if s.cfg.metricsInterval > 0 then true else s.metricsTimerRunning }

/-- The forceFlush branch after draining queued events (src/tracer.go
lines 669 to 673): when no request is active and both buffers are empty
the acknowledgment is delivered immediately and the iteration continues;
otherwise the request is marked for closing. -/
def forceFlushAfterDrain (Z : ZlibOracle) (now : Int) (s : LoopState) :
    LoopState × Effects :=
  if s.requestActive = false ∧ s.buffer.blocks = [] ∧ s.metricsBuffer.blocks = [] then
    (s, { flushedAck := true })
  else postSelect Z now false { s with closeRequest := true } {}

/-- One iteration of the tracer loop (src/tracer.go lines 590 to 841):
dispatch on the serviced event, then run the shared tail unless the branch
continues or the loop terminates. -/
def loopStep (Z : ZlibOracle) (now : Int) (s : LoopState) (ev : LoopEvent) :
    LoopState × Effects :=
  match ev with
  | .closing =>
      ({ s with terminated := true },
       { canceledContext := true, closedReadEOF := true })
  | .configCmd c => (configBranch c s, {})
  | .ingest e => postSelect Z now false (ingestBranch e s) {}
  | .requestTimerFire =>
      postSelect Z now false { s with requestTimerActive := false, closeRequest := true } {}
  | .metricsTimerFire =>
      postSelect Z now (!s.gatheringMetrics) { s with metricsTimerRunning := false } {}
  | .forceSendMetrics =>
      postSelect Z now (!s.gatheringMetrics)
        { s with sentMetricsPending := true, metricsTimerRunning := false } {}
  | .gatheredSignal =>
      postSelect Z now false (gatheredApply (writeMetricsB s)) {}
  | .forceFlush queued =>
      forceFlushAfterDrain Z now
        { (queued.foldl (fun acc e => writeIngest e acc) s) with flushedPending := true }
  | .readRequest cap => postSelect Z now false { s with reqBufCap := some cap } {}
  | .result err =>
      postSelect Z now false (resultBranch s err).1 (resultBranch s err).2

/-- Whether the loop can service the given event in the given state: the
select case must be ready (timers only fire while armed, a result is only
received once deposited, gather completion only once signalled, read
requests only while a send is in flight) and the loop must still be
running. -/
def enabledB (s : LoopState) : LoopEvent → Bool
  | .requestTimerFire => !s.terminated && s.requestTimerActive
  | .metricsTimerFire => !s.terminated && s.metricsTimerRunning
  | .gatheredSignal => !s.terminated && decide (s.gather = GatherState.done)
  | .result err => !s.terminated && decide (s.resultPending = some err)
  | .readRequest _ => !s.terminated && s.senderBusy && decide (s.reqBufCap = none)
  | _ => !s.terminated

/-- Completion of the blocking SendStream call in the send goroutine
(src/tracer.go lines 546 to 557): the goroutine deposits the outcome in
the requestResult channel and returns to waiting. -/
def senderDoneStep (s : LoopState) (err : Option SendError) : LoopState :=
  { s with senderBusy := false, resultPending := some err,
           sendsOutstanding := s.sendsOutstanding - 1 }

/-- Completion of a metrics-gather cycle (src/tracer.go lines 868 to 885):
all gatherer contributions are joined onto the snapshot, every entry is
stamped with the shared collection timestamp taken at the start of the
cycle, and the completion signal becomes available exactly once. -/
def gatherDoneStep (s : LoopState) (ts : Int) (contribs : List (List MetricsEntry)) :
    LoopState :=
  { s with gather := GatherState.done,
           metrics := (s.metrics ++ contribs.flatten).map fun e => { e with timestamp := ts } }

/-- Labels of system transitions: a serviced loop iteration with its
observable effects, completion of an in-flight send, or completion of a
gather cycle. -/
inductive SysLabel where
  | loopEv (now : Int) (ev : LoopEvent) (eff : Effects)
  | senderDone (err : Option SendError)
  | gatherDone
deriving DecidableEq, Repr

/-- The transition relation of the tracer system: the loop services an
enabled event, the send goroutine finishes its blocking send, or a gather
cycle completes. -/
inductive Step (Z : ZlibOracle) : LoopState → SysLabel → LoopState → Prop where
  | loop (s : LoopState) (now : Int) (ev : LoopEvent)
      (h : enabledB s ev = true) :
      Step Z s (.loopEv now ev (loopStep Z now s ev).2) (loopStep Z now s ev).1
  | senderDone (s : LoopState) (err : Option SendError)
      (hb : s.senderBusy = true) (hp : s.resultPending = none) :
      Step Z s (.senderDone err) (senderDoneStep s err)
  | gatherDone (s : LoopState) (ts : Int) (contribs : List (List MetricsEntry))
      (hg : s.gather = GatherState.running ts contribs) :
      Step Z s .gatherDone (gatherDoneStep s ts contribs)

/-- States reachable from a given start state. -/
inductive ReachableFrom (Z : ZlibOracle) (s0 : LoopState) : LoopState → Prop where
  | refl : ReachableFrom Z s0 s0
  | tail {s s' : LoopState} {l : SysLabel} :
      ReachableFrom Z s0 s → Step Z s l s' → ReachableFrom Z s0 s'

/-- The loop state as initialized in src/tracer.go lines 515 to 588, for a
given initial configuration and the two ring-buffer capacities. -/
def initState (cfg0 : TracerConfigM) (bufCap mbufCap : Nat) : LoopState where
  cfg := cfg0
  gracePeriod := -1
  flushedPending := false
  sentMetricsPending := false
  rbTransactions := 0
  rbSpans := 0
  rbErrors := 0
  rbMetricsets := 0
  zlibFlushed := true
  zlibClosed := false
  requestBuf := 0
  uncompressedWritten := 0
  requestBytesRead := 0
  requestActive := false
  closeRequest := false
  flushRequest := false
  requestTimerActive := false
  metadataCached := false
  metricsTimerRunning := false
  gatheringMetrics := false
  metrics := []
  buffer := ⟨bufCap, []⟩
  metricsBuffer := ⟨mbufCap, []⟩
  statsLocal := {}
  statsShared := {}
  reqBufCap := none
  senderBusy := false
  resultPending := none
  gather := GatherState.idle
  terminated := false
  sendsOutstanding := 0
  gathersOutstanding := 0

/-- The send-side ghost view of a state: the fields governing the single
in-flight request invariant. -/
structure GhostSend where
  senderBusy : Bool
  resultPending : Option (Option SendError)
  requestActive : Bool
  sendsOutstanding : Nat
deriving DecidableEq, Repr

/-- Projection to the send-side ghost view. -/
def gsend (s : LoopState) : GhostSend :=
  ⟨s.senderBusy, s.resultPending, s.requestActive, s.sendsOutstanding⟩

/-- The gather-side ghost view of a state: the fields governing the single
in-flight gather-cycle invariant. -/
structure GhostGather where
  gatheringMetrics : Bool
  gather : GatherState
  gathersOutstanding : Nat
deriving DecidableEq, Repr

/-- Projection to the gather-side ghost view. -/
def ggather (s : LoopState) : GhostGather :=
  ⟨s.gatheringMetrics, s.gather, s.gathersOutstanding⟩

theorem streamLoopF_frame (n : Nat) (s : LoopState) :
    gsend (streamLoopF n s) = gsend s ∧ ggather (streamLoopF n s) = ggather s ∧
    (streamLoopF n s).statsShared = s.statsShared ∧
    (streamLoopF n s).statsLocal = s.statsLocal ∧
    (streamLoopF n s).requestBytesRead = s.requestBytesRead ∧
    (streamLoopF n s).cfg = s.cfg ∧
    (streamLoopF n s).sentMetricsPending = s.sentMetricsPending ∧
    (streamLoopF n s).zlibClosed = s.zlibClosed ∧
    (streamLoopF n s).flushedPending = s.flushedPending ∧
    (streamLoopF n s).reqBufCap = s.reqBufCap := by
  induction n generalizing s with
  | zero => exact ⟨rfl, rfl, rfl, rfl, rfl, rfl, rfl, rfl, rfl, rfl⟩
  | succ n ih =>
    unfold streamLoopF
    split
    · split
      · exact ih _
      · split
        · exact ⟨rfl, rfl, rfl, rfl, rfl, rfl, rfl, rfl, rfl, rfl⟩
        · exact ih _
    · exact ⟨rfl, rfl, rfl, rfl, rfl, rfl, rfl, rfl, rfl, rfl⟩

theorem gsend_mergeStatsL (s : LoopState) : gsend (mergeStatsL s) = gsend s := by
  unfold mergeStatsL; split <;> rfl

theorem ggather_mergeStatsL (s : LoopState) : ggather (mergeStatsL s) = ggather s := by
  unfold mergeStatsL; split <;> rfl

theorem gsend_gatherStart (now : Int) (s : LoopState) :
    gsend (gatherStart now s) = gsend s := rfl

theorem ggather_openRequest (Z : ZlibOracle) (s : LoopState) (eff : Effects) :
    ggather (openRequest Z s eff).1 = ggather s := rfl

theorem gsend_streamPhase (s : LoopState) : gsend (streamPhase s) = gsend s := by
  unfold streamPhase streamClose
  have h := streamLoopF_frame (blocksTotal s) s
  split
  · exact h.1
  · exact h.1

theorem ggather_streamPhase (s : LoopState) : ggather (streamPhase s) = ggather s := by
  unfold streamPhase streamClose
  have h := streamLoopF_frame (blocksTotal s) s
  split
  · exact h.2.1
  · exact h.2.1

theorem statsShared_streamPhase (s : LoopState) :
    (streamPhase s).statsShared = s.statsShared := by
  unfold streamPhase streamClose
  have h := streamLoopF_frame (blocksTotal s) s
  split
  · exact h.2.2.1
  · exact h.2.2.1

theorem gsend_closeFlushPhase (Z : ZlibOracle) (s : LoopState) :
    gsend (closeFlushPhase Z s) = gsend s := by
  unfold closeFlushPhase; split <;> split <;> rfl

theorem ggather_closeFlushPhase (Z : ZlibOracle) (s : LoopState) :
    ggather (closeFlushPhase Z s) = ggather s := by
  unfold closeFlushPhase; split <;> split <;> rfl

theorem statsShared_closeFlushPhase (Z : ZlibOracle) (s : LoopState) :
    (closeFlushPhase Z s).statsShared = s.statsShared := by
  unfold closeFlushPhase; split <;> split <;> rfl

theorem gsend_respondPhase (s : LoopState) : gsend (respondPhase s) = gsend s := by
  unfold respondPhase; split
  · rfl
  · split
    · rfl
    · split <;> rfl

theorem ggather_respondPhase (s : LoopState) : ggather (respondPhase s) = ggather s := by
  unfold respondPhase; split
  · rfl
  · split
    · rfl
    · split <;> rfl

theorem statsShared_respondPhase (s : LoopState) :
    (respondPhase s).statsShared = s.statsShared := by
  unfold respondPhase; split
  · rfl
  · split
    · rfl
    · split <;> rfl

theorem gsend_streamGuard (s : LoopState) : gsend (streamGuard s) = gsend s := by
  unfold streamGuard
  split
  · exact gsend_streamPhase s
  · rfl

theorem ggather_streamGuard (s : LoopState) : ggather (streamGuard s) = ggather s := by
  unfold streamGuard
  split
  · exact ggather_streamPhase s
  · rfl

theorem statsShared_streamGuard (s : LoopState) :
    (streamGuard s).statsShared = s.statsShared := by
  unfold streamGuard
  split
  · exact statsShared_streamPhase s
  · rfl

theorem gsend_postTail (Z : ZlibOracle) (p : LoopState × Effects) :
    gsend (postTail Z p).1 = gsend p.1 := by
  show gsend (respondPhase (closeFlushPhase Z (streamGuard p.1))) = gsend p.1
  rw [gsend_respondPhase, gsend_closeFlushPhase, gsend_streamGuard]

theorem ggather_postTail (Z : ZlibOracle) (p : LoopState × Effects) :
    ggather (postTail Z p).1 = ggather p.1 := by
  show ggather (respondPhase (closeFlushPhase Z (streamGuard p.1))) = ggather p.1
  rw [ggather_respondPhase, ggather_closeFlushPhase, ggather_streamGuard]

theorem statsShared_postTail (Z : ZlibOracle) (p : LoopState × Effects) :
    (postTail Z p).1.statsShared = p.1.statsShared := by
  show (respondPhase (closeFlushPhase Z (streamGuard p.1))).statsShared = p.1.statsShared
  rw [statsShared_respondPhase, statsShared_closeFlushPhase, statsShared_streamGuard]

theorem gsend_writeIngest (e : IngestEvent) (s : LoopState) :
    gsend (writeIngest e s) = gsend s := rfl

theorem ggather_writeIngest (e : IngestEvent) (s : LoopState) :
    ggather (writeIngest e s) = ggather s := rfl

theorem statsShared_writeIngest (e : IngestEvent) (s : LoopState) :
    (writeIngest e s).statsShared = s.statsShared := rfl

theorem gsend_ingestBranch (e : IngestEvent) (s : LoopState) :
    gsend (ingestBranch e s) = gsend s := by
  unfold ingestBranch
  cases e.kind <;> rfl

theorem ggather_ingestBranch (e : IngestEvent) (s : LoopState) :
    ggather (ingestBranch e s) = ggather s := by
  unfold ingestBranch
  cases e.kind <;> rfl

theorem statsShared_ingestBranch (e : IngestEvent) (s : LoopState) :
    (ingestBranch e s).statsShared = s.statsShared := by
  unfold ingestBranch
  cases e.kind <;> rfl

theorem gsend_configTimerAdjust (oldInterval : Int) (s : LoopState) :
    gsend (configTimerAdjust oldInterval s) = gsend s := by
  unfold configTimerAdjust
  split
  · split
    · split <;> rfl
    · split <;> rfl
  · rfl

theorem ggather_configTimerAdjust (oldInterval : Int) (s : LoopState) :
    ggather (configTimerAdjust oldInterval s) = ggather s := by
  unfold configTimerAdjust
  split
  · split
    · split <;> rfl
    · split <;> rfl
  · rfl

theorem statsShared_configTimerAdjust (oldInterval : Int) (s : LoopState) :
    (configTimerAdjust oldInterval s).statsShared = s.statsShared := by
  unfold configTimerAdjust
  split
  · split
    · split <;> rfl
    · split <;> rfl
  · rfl

theorem gsend_drain (q : List IngestEvent) (s : LoopState) :
    gsend (q.foldl (fun acc e => writeIngest e acc) s) = gsend s := by
  induction q generalizing s with
  | nil => rfl
  | cons e q ih =>
    show gsend (q.foldl (fun acc e => writeIngest e acc) (writeIngest e s)) = gsend s
    rw [ih]
    exact gsend_writeIngest e s

theorem ggather_drain (q : List IngestEvent) (s : LoopState) :
    ggather (q.foldl (fun acc e => writeIngest e acc) s) = ggather s := by
  induction q generalizing s with
  | nil => rfl
  | cons e q ih =>
    show ggather (q.foldl (fun acc e => writeIngest e acc) (writeIngest e s)) = ggather s
    rw [ih]
    exact ggather_writeIngest e s

theorem statsShared_drain (q : List IngestEvent) (s : LoopState) :
    (q.foldl (fun acc e => writeIngest e acc) s).statsShared = s.statsShared := by
  induction q generalizing s with
  | nil => rfl
  | cons e q ih =>
    show (q.foldl (fun acc e => writeIngest e acc) (writeIngest e s)).statsShared =
      s.statsShared
    rw [ih]
    exact statsShared_writeIngest e s

theorem gsend_resultBranch (s : LoopState) (err : Option SendError) :
    gsend (resultBranch s err).1 =
      ⟨s.senderBusy, none, false, s.sendsOutstanding⟩ := by
  unfold resultBranch resultReset resultAckFlush resultAckMetrics mergePair mergeStatsL
    resultAccount
  cases err <;> (repeat' split) <;> rfl

theorem ggather_resultBranch (s : LoopState) (err : Option SendError) :
    ggather (resultBranch s err).1 = ggather s := by
  unfold resultBranch resultReset resultAckFlush resultAckMetrics mergePair mergeStatsL
    resultAccount
  cases err <;> (repeat' split) <;> rfl

/-- The single-in-flight-send invariant, stated on the send-side ghost
view: the ghost counter of outstanding SendStream calls matches the
sender-busy bit, a busy sender or an unconsumed result implies an active
request, and a busy sender has no unconsumed result. -/
def InvSendG (g : GhostSend) : Prop :=
  g.sendsOutstanding = (if g.senderBusy = true then 1 else 0) ∧
  (g.senderBusy = true → g.requestActive = true) ∧
  (g.resultPending ≠ none → g.requestActive = true) ∧
  (g.senderBusy = true → g.resultPending = none)

/-- The single-in-flight-send invariant on loop states. -/
def InvC1 (s : LoopState) : Prop := InvSendG (gsend s)

theorem invC1_postOpen (Z : ZlibOracle) (p : LoopState × Effects) (h : InvC1 p.1) :
    InvC1 (postOpen Z p).1 := by
  unfold postOpen
  split
  · exact h
  · unfold InvC1
    rw [gsend_postTail]
    split
    · rename_i hra
      obtain ⟨h1, h2, h3, h4⟩ := h
      simp only [gsend] at h1 h2 h3 h4
      have hb : p.1.senderBusy = false := by
        cases hsb : p.1.senderBusy
        · rfl
        · rw [h2 hsb] at hra
          cases hra
      have hp : p.1.resultPending = none := by
        cases hrp : p.1.resultPending
        · rfl
        · rw [h3 (by rw [hrp]; exact Option.some_ne_none _)] at hra
          cases hra
      refine ⟨?_, fun _ => rfl, fun _ => rfl, fun _ => hp⟩
      show p.1.sendsOutstanding + 1 = if (true : Bool) = true then 1 else 0
      simp [h1, hb]
    · exact h

theorem invC1_postSelect (Z : ZlibOracle) (now : Int) (g : Bool) (s : LoopState)
    (eff : Effects) (h : InvC1 s) : InvC1 (postSelect Z now g s eff).1 := by
  unfold postSelect
  apply invC1_postOpen
  split
  · show InvC1 (gatherStart now (mergeStatsL s))
    unfold InvC1
    rw [gsend_gatherStart, gsend_mergeStatsL]
    exact h
  · show InvC1 (mergeStatsL s)
    unfold InvC1
    rw [gsend_mergeStatsL]
    exact h

theorem invC1_loopStep (Z : ZlibOracle) (now : Int) (s : LoopState) (ev : LoopEvent)
    (h : InvC1 s) (hen : enabledB s ev = true) : InvC1 (loopStep Z now s ev).1 := by
  cases ev with
  | closing => exact h
  | configCmd c =>
      show InvC1 (configBranch c s)
      unfold InvC1 configBranch
      rw [gsend_configTimerAdjust]
      exact h
  | ingest e =>
      refine invC1_postSelect Z now false (ingestBranch e s) {} ?_
      unfold InvC1
      rw [gsend_ingestBranch]
      exact h
  | requestTimerFire => exact invC1_postSelect Z now false _ {} h
  | metricsTimerFire => exact invC1_postSelect Z now (!s.gatheringMetrics) _ {} h
  | forceSendMetrics => exact invC1_postSelect Z now (!s.gatheringMetrics) _ {} h
  | gatheredSignal => exact invC1_postSelect Z now false _ {} h
  | forceFlush queued =>
      show InvC1 (forceFlushAfterDrain Z now _).1
      have hd : InvC1 { (queued.foldl (fun acc e => writeIngest e acc) s) with
          flushedPending := true } := by
        unfold InvC1
        show InvSendG (gsend (queued.foldl (fun acc e => writeIngest e acc) s))
        rw [gsend_drain]
        exact h
      unfold forceFlushAfterDrain
      split
      · exact hd
      · exact invC1_postSelect Z now false _ {} hd
  | readRequest cap => exact invC1_postSelect Z now false _ {} h
  | result err =>
      have hpend : s.resultPending = some err := by
        have := hen
        unfold enabledB at this
        simp only [Bool.and_eq_true, decide_eq_true_eq] at this
        exact this.2
      obtain ⟨h1, h2, h3, h4⟩ := h
      simp only [gsend] at h1 h2 h3 h4
      have hb : s.senderBusy = false := by
        cases hsb : s.senderBusy
        · rfl
        · rw [h4 hsb] at hpend
          cases hpend
      refine invC1_postSelect Z now false (resultBranch s err).1 (resultBranch s err).2 ?_
      unfold InvC1
      rw [gsend_resultBranch]
      refine ⟨?_, ?_, fun hne => absurd rfl hne, fun _ => rfl⟩
      · exact h1
      · intro hbt
        rw [hb] at hbt
        cases hbt

theorem invC1_step {Z : ZlibOracle} {s s' : LoopState} {l : SysLabel}
    (h : InvC1 s) (hs : Step Z s l s') : InvC1 s' := by
  cases hs with
  | loop now ev hen => exact invC1_loopStep Z now s ev h hen
  | senderDone err hb hp =>
      obtain ⟨h1, h2, h3, h4⟩ := h
      simp only [gsend] at h1 h2 h3 h4
      refine ⟨?_, ?_, ?_, ?_⟩
      · show s.sendsOutstanding - 1 = if (false : Bool) = true then 1 else 0
        simp [h1, hb]
      · intro hbt
        cases hbt
      · intro _
        exact h2 hb
      · intro hbt
        cases hbt
  | gatherDone ts contribs hg => exact h

theorem invC1_reachable {Z : ZlibOracle} {s0 s : LoopState}
    (hr : ReachableFrom Z s0 s) (h0 : InvC1 s0) : InvC1 s := by
  induction hr with
  | refl => exact h0
  | tail _ hs ih => exact invC1_step ih hs

/-- The single-in-flight gather-cycle invariant, on the gather-side ghost
view: the ghost counter of outstanding gather cycles matches the
gatheringMetrics flag, and the flag is cleared exactly when the cycle
machinery is idle. -/
def InvGatherG (g : GhostGather) : Prop :=
  g.gathersOutstanding = (if g.gatheringMetrics = true then 1 else 0) ∧
  (g.gatheringMetrics = false ↔ g.gather = GatherState.idle)

/-- The single-in-flight gather-cycle invariant on loop states. -/
def InvC8 (s : LoopState) : Prop := InvGatherG (ggather s)

theorem invC8_postOpen (Z : ZlibOracle) (p : LoopState × Effects) (h : InvC8 p.1) :
    InvC8 (postOpen Z p).1 := by
  unfold postOpen
  split
  · exact h
  · unfold InvC8
    rw [ggather_postTail]
    split
    · rw [ggather_openRequest]
      exact h
    · exact h

theorem invC8_postSelect (Z : ZlibOracle) (now : Int) (g : Bool) (s : LoopState)
    (eff : Effects) (h : InvC8 s) (hflag : g = true → s.gatheringMetrics = false) :
    InvC8 (postSelect Z now g s eff).1 := by
  unfold postSelect
  apply invC8_postOpen
  split
  · rename_i hgt
    show InvC8 (gatherStart now (mergeStatsL s))
    obtain ⟨h1, h2⟩ := h
    simp only [ggather] at h1 h2
    have hgm : s.gatheringMetrics = false := hflag hgt
    constructor
    · show (mergeStatsL s).gathersOutstanding + 1 = if (true : Bool) = true then 1 else 0
      have hmo : (mergeStatsL s).gathersOutstanding = s.gathersOutstanding :=
        congrArg GhostGather.gathersOutstanding (ggather_mergeStatsL s)
      simp [hmo, h1, hgm]
    · show ((true : Bool) = false ↔ GatherState.running now (mergeStatsL s).cfg.metricsGatherers = GatherState.idle)
      constructor
      · intro hbad
        cases hbad
      · intro hbad
        cases hbad
  · show InvC8 (mergeStatsL s)
    unfold InvC8
    rw [ggather_mergeStatsL]
    exact h

theorem invC8_loopStep (Z : ZlibOracle) (now : Int) (s : LoopState) (ev : LoopEvent)
    (h : InvC8 s) (hen : enabledB s ev = true) : InvC8 (loopStep Z now s ev).1 := by
  cases ev with
  | closing => exact h
  | configCmd c =>
      show InvC8 (configBranch c s)
      unfold InvC8 configBranch
      rw [ggather_configTimerAdjust]
      exact h
  | ingest e =>
      refine invC8_postSelect Z now false (ingestBranch e s) {} ?_ (by intro hx; cases hx)
      unfold InvC8
      rw [ggather_ingestBranch]
      exact h
  | requestTimerFire =>
      exact invC8_postSelect Z now false _ {} h (by intro hx; cases hx)
  | metricsTimerFire =>
      refine invC8_postSelect Z now (!s.gatheringMetrics) _ {} h ?_
      intro hx
      show s.gatheringMetrics = false
      cases hgm : s.gatheringMetrics
      · rfl
      · rw [hgm] at hx
        cases hx
  | forceSendMetrics =>
      refine invC8_postSelect Z now (!s.gatheringMetrics) _ {} h ?_
      intro hx
      show s.gatheringMetrics = false
      cases hgm : s.gatheringMetrics
      · rfl
      · rw [hgm] at hx
        cases hx
  | gatheredSignal =>
      have hdone : s.gather = GatherState.done := by
        have := hen
        unfold enabledB at this
        simp only [Bool.and_eq_true, decide_eq_true_eq] at this
        exact this.2
      obtain ⟨h1, h2⟩ := h
      simp only [ggather] at h1 h2
      have hgm : s.gatheringMetrics = true := by
        cases hgmc : s.gatheringMetrics
        · rw [h2.mp hgmc] at hdone
          cases hdone
        · rfl
      refine invC8_postSelect Z now false (gatheredApply (writeMetricsB s)) {} ?_
        (by intro hx; cases hx)
      constructor
      · show s.gathersOutstanding - 1 = if (false : Bool) = true then 1 else 0
        simp [h1, hgm]
      · show ((false : Bool) = false ↔ GatherState.idle = GatherState.idle)
        simp
  | forceFlush queued =>
      have hd : InvC8 { (queued.foldl (fun acc e => writeIngest e acc) s) with
          flushedPending := true } := by
        unfold InvC8
        show InvGatherG (ggather (queued.foldl (fun acc e => writeIngest e acc) s))
        rw [ggather_drain]
        exact h
      show InvC8 (forceFlushAfterDrain Z now _).1
      unfold forceFlushAfterDrain
      split
      · exact hd
      · exact invC8_postSelect Z now false _ {} hd (by intro hx; cases hx)
  | readRequest cap =>
      exact invC8_postSelect Z now false _ {} h (by intro hx; cases hx)
  | result err =>
      refine invC8_postSelect Z now false (resultBranch s err).1 (resultBranch s err).2 ?_
        (by intro hx; cases hx)
      unfold InvC8
      rw [ggather_resultBranch]
      exact h

theorem invC8_step {Z : ZlibOracle} {s s' : LoopState} {l : SysLabel}
    (h : InvC8 s) (hs : Step Z s l s') : InvC8 s' := by
  cases hs with
  | loop now ev hen => exact invC8_loopStep Z now s ev h hen
  | senderDone err hb hp => exact h
  | gatherDone ts contribs hg =>
      obtain ⟨h1, h2⟩ := h
      simp only [ggather] at h1 h2
      have hgm : s.gatheringMetrics = true := by
        cases hgmc : s.gatheringMetrics
        · rw [h2.mp hgmc] at hg
          cases hg
        · rfl
      constructor
      · show s.gathersOutstanding = if s.gatheringMetrics = true then 1 else 0
        exact h1
      · show (s.gatheringMetrics = false ↔ GatherState.done = GatherState.idle)
        rw [hgm]
        simp

theorem invC8_reachable {Z : ZlibOracle} {s0 s : LoopState}
    (hr : ReachableFrom Z s0 s) (h0 : InvC8 s0) : InvC8 s := by
  induction hr with
  | refl => exact h0
  | tail _ hs ih => exact invC8_step ih hs

theorem startedGather_postOpen (Z : ZlibOracle) (p : LoopState × Effects) :
    (postOpen Z p).2.startedGather = p.2.startedGather := by
  unfold postOpen postTail
  split
  · rfl
  · split <;> rfl

theorem startedGather_postSelect_false (Z : ZlibOracle) (now : Int) (s : LoopState)
    (eff : Effects) : (postSelect Z now false s eff).2.startedGather = eff.startedGather :=
  startedGather_postOpen Z (mergeStatsL s, eff)

/-- A sample configuration used by the witness theorems. -/
def cfgW : TracerConfigM := ⟨1000, 1, 0, false, []⟩

/-- A sample compressor oracle used by the witness theorems. -/
def zlibW : ZlibOracle := ⟨3, 10, 2, 1⟩

/-- C1: for every reachable state of the tracer system, at most one
network send is outstanding (the ghost counter of in-flight SendStream
calls never exceeds one); moreover a busy sender implies an active
request, and an unconsumed send result implies an active request, so the
loop - which only signals the send goroutine when requestActive is false
and clears requestActive only in the requestResult branch - can never
start a second send while one is in flight. -/
theorem C1_single_inflight_send (Z : ZlibOracle) (cfg0 : TracerConfigM)
    (bufCap mbufCap : Nat) (s : LoopState)
    (hr : ReachableFrom Z (initState cfg0 bufCap mbufCap) s) :
    s.sendsOutstanding ≤ 1 ∧
    (s.senderBusy = true → s.requestActive = true) ∧
    (s.resultPending ≠ none → s.requestActive = true) := by
  have h0 : InvC1 (initState cfg0 bufCap mbufCap) := by
    refine ⟨rfl, ?_, ?_, fun _ => rfl⟩
    · intro hx
      exact absurd hx Bool.false_ne_true
    · intro hx
      exact absurd rfl hx
  obtain ⟨h1, h2, h3, h4⟩ := invC1_reachable hr h0
  simp only [gsend] at h1 h2 h3 h4
  refine ⟨?_, h2, h3⟩
  rw [h1]
  split <;> omega

theorem C1_single_inflight_send_witness :
    (initState cfgW 100 50).sendsOutstanding ≤ 1 ∧
    ((initState cfgW 100 50).senderBusy = true →
      (initState cfgW 100 50).requestActive = true) ∧
    ((initState cfgW 100 50).resultPending ≠ none →
      (initState cfgW 100 50).requestActive = true) :=
  C1_single_inflight_send zlibW cfgW 100 50 _ ReachableFrom.refl

/-- C8: in every reachable state at most one metrics-gather cycle is
outstanding; while one is outstanding (gatheringMetrics true) neither a
metrics-timer firing nor a forced SendMetrics starts another cycle (no
started-gather effect is emitted); and every completion of a gather cycle
comes from a running cycle, joins all captured gatherer contributions, and
stamps every produced entry with the one shared collection timestamp taken
when the cycle started. -/
theorem C8_single_gather_cycle (Z : ZlibOracle) (cfg0 : TracerConfigM)
    (bufCap mbufCap : Nat) (s : LoopState)
    (hr : ReachableFrom Z (initState cfg0 bufCap mbufCap) s) :
    s.gathersOutstanding ≤ 1 ∧
    (s.gatheringMetrics = true → ∀ now : Int,
      (loopStep Z now s LoopEvent.metricsTimerFire).2.startedGather = false ∧
      (loopStep Z now s LoopEvent.forceSendMetrics).2.startedGather = false) ∧
    (∀ s' : LoopState, Step Z s SysLabel.gatherDone s' →
      ∃ ts contribs, s.gather = GatherState.running ts contribs ∧
        s'.gather = GatherState.done ∧
        s'.metrics = (s.metrics ++ contribs.flatten).map
          (fun e => { e with timestamp := ts }) ∧
        ∀ e ∈ s'.metrics, e.timestamp = ts) := by
  have h0 : InvC8 (initState cfg0 bufCap mbufCap) := ⟨rfl, by simp [ggather, initState]⟩
  obtain ⟨h1, h2⟩ := invC8_reachable hr h0
  simp only [ggather] at h1 h2
  refine ⟨?_, ?_, ?_⟩
  · rw [h1]
    split <;> omega
  · intro hgm now
    constructor
    · show (postSelect Z now (!s.gatheringMetrics)
        { s with metricsTimerRunning := false } {}).2.startedGather = false
      rw [hgm]
      exact startedGather_postSelect_false Z now _ {}
    · show (postSelect Z now (!s.gatheringMetrics)
        { s with sentMetricsPending := true, metricsTimerRunning := false }
        {}).2.startedGather = false
      rw [hgm]
      exact startedGather_postSelect_false Z now _ {}
  · intro s' hst
    cases hst with
    | gatherDone ts contribs hg =>
      refine ⟨ts, contribs, hg, rfl, rfl, ?_⟩
      intro e he
      simp only [gatherDoneStep, List.mem_map] at he
      obtain ⟨a, _, rfl⟩ := he
      rfl

theorem C8_single_gather_cycle_witness :
    (initState cfgW 100 50).gathersOutstanding ≤ 1 ∧
    ((initState cfgW 100 50).gatheringMetrics = true → ∀ now : Int,
      (loopStep zlibW now (initState cfgW 100 50)
        LoopEvent.metricsTimerFire).2.startedGather = false ∧
      (loopStep zlibW now (initState cfgW 100 50)
        LoopEvent.forceSendMetrics).2.startedGather = false) ∧
    (∀ s' : LoopState, Step zlibW (initState cfgW 100 50) SysLabel.gatherDone s' →
      ∃ ts contribs,
        (initState cfgW 100 50).gather = GatherState.running ts contribs ∧
        s'.gather = GatherState.done ∧
        s'.metrics = ((initState cfgW 100 50).metrics ++ contribs.flatten).map
          (fun e => { e with timestamp := ts }) ∧
        ∀ e ∈ s'.metrics, e.timestamp = ts) :=
  C8_single_gather_cycle zlibW cfgW 100 50 _ ReachableFrom.refl

/-- The externally visible stats snapshot: what Tracer.Stats returns under
the stats lock (src/tracer.go lines 508 to 513). -/
def statsRead (s : LoopState) : TracerStats := s.statsShared

theorem statsShared_le_mergeStatsL (s : LoopState) :
    TracerStats.le s.statsShared (mergeStatsL s).statsShared := by
  unfold mergeStatsL
  split
  · exact TracerStats.le_refl _
  · exact TracerStats.le_accumulate _ _

theorem statsShared_postOpen (Z : ZlibOracle) (p : LoopState × Effects) :
    (postOpen Z p).1.statsShared = p.1.statsShared := by
  unfold postOpen
  split
  · rfl
  · rw [statsShared_postTail]
    split <;> rfl

theorem statsShared_le_postSelect (Z : ZlibOracle) (now : Int) (g : Bool)
    (s : LoopState) (eff : Effects) :
    TracerStats.le s.statsShared (postSelect Z now g s eff).1.statsShared := by
  unfold postSelect
  rw [statsShared_postOpen]
  split
  · show TracerStats.le s.statsShared (gatherStart now (mergeStatsL s)).statsShared
    exact statsShared_le_mergeStatsL s
  · exact statsShared_le_mergeStatsL s

theorem statsShared_resultAckMetrics (p : LoopState × Effects) :
    (resultAckMetrics p).1.statsShared = p.1.statsShared := by
  unfold resultAckMetrics
  split <;> rfl

theorem statsShared_resultAckFlush (p : LoopState × Effects) :
    (resultAckFlush p).1.statsShared = p.1.statsShared := by
  unfold resultAckFlush
  split <;> rfl

theorem statsShared_resultAccount (s : LoopState) (err : Option SendError) :
    (resultAccount s err).1.statsShared = s.statsShared := by
  cases err <;> rfl

theorem statsShared_le_resultBranch (s : LoopState) (err : Option SendError) :
    TracerStats.le s.statsShared (resultBranch s err).1.statsShared := by
  unfold resultBranch
  show TracerStats.le s.statsShared (resultReset _).1.statsShared
  unfold resultReset
  rw [show ((_ : LoopState × Effects)).1.statsShared = _ from rfl]
  rw [statsShared_resultAckFlush, statsShared_resultAckMetrics]
  have h := statsShared_le_mergeStatsL (resultAccount s err).1
  rw [statsShared_resultAccount] at h
  exact h

theorem statsShared_le_loopStep (Z : ZlibOracle) (now : Int) (s : LoopState)
    (ev : LoopEvent) :
    TracerStats.le s.statsShared (loopStep Z now s ev).1.statsShared := by
  cases ev with
  | closing => exact TracerStats.le_refl _
  | configCmd c =>
      have heq : (configBranch c s).statsShared = s.statsShared := by
        unfold configBranch
        rw [statsShared_configTimerAdjust]
      show TracerStats.le s.statsShared (configBranch c s).statsShared
      rw [heq]
      exact TracerStats.le_refl _
  | ingest e =>
      have h := statsShared_le_postSelect Z now false (ingestBranch e s) {}
      rw [statsShared_ingestBranch] at h
      exact h
  | requestTimerFire =>
      exact statsShared_le_postSelect Z now false
        { s with requestTimerActive := false, closeRequest := true } {}
  | metricsTimerFire =>
      exact statsShared_le_postSelect Z now (!s.gatheringMetrics)
        { s with metricsTimerRunning := false } {}
  | forceSendMetrics =>
      exact statsShared_le_postSelect Z now (!s.gatheringMetrics)
        { s with sentMetricsPending := true, metricsTimerRunning := false } {}
  | gatheredSignal =>
      exact statsShared_le_postSelect Z now false (gatheredApply (writeMetricsB s)) {}
  | forceFlush queued =>
      show TracerStats.le s.statsShared (forceFlushAfterDrain Z now _).1.statsShared
      unfold forceFlushAfterDrain
      split
      · show TracerStats.le s.statsShared
          ({ (queued.foldl (fun acc e => writeIngest e acc) s) with
            flushedPending := true }).statsShared
        rw [show ({ (queued.foldl (fun acc e => writeIngest e acc) s) with
            flushedPending := true } : LoopState).statsShared =
          (queued.foldl (fun acc e => writeIngest e acc) s).statsShared from rfl]
        rw [statsShared_drain]
        exact TracerStats.le_refl _
      · have h := statsShared_le_postSelect Z now false
          { ({ (queued.foldl (fun acc e => writeIngest e acc) s) with
              flushedPending := true } : LoopState) with closeRequest := true } {}
        rw [show ({ ({ (queued.foldl (fun acc e => writeIngest e acc) s) with
            flushedPending := true } : LoopState) with
            closeRequest := true } : LoopState).statsShared =
          (queued.foldl (fun acc e => writeIngest e acc) s).statsShared from rfl] at h
        rw [statsShared_drain] at h
        exact h
  | readRequest cap =>
      exact statsShared_le_postSelect Z now false { s with reqBufCap := some cap } {}
  | result err =>
      have h1 := statsShared_le_resultBranch s err
      have h2 := statsShared_le_postSelect Z now false
        (resultBranch s err).1 (resultBranch s err).2
      exact TracerStats.le_trans h1 h2

theorem statsShared_le_step {Z : ZlibOracle} {s s' : LoopState} {l : SysLabel}
    (hs : Step Z s l s') : TracerStats.le s.statsShared s'.statsShared := by
  cases hs with
  | loop now ev hen => exact statsShared_le_loopStep Z now s ev
  | senderDone err hb hp => exact TracerStats.le_refl _
  | gatherDone ts contribs hg => exact TracerStats.le_refl _

theorem enabledB_terminated (s : LoopState) (ev : LoopEvent)
    (ht : s.terminated = true) : enabledB s ev = false := by
  cases ev <;> simp [enabledB, ht]

/-- C7: the externally visible stats are monotone.  Every system step only
grows the shared stats (the loop merges its local accumulator by addition
and never resets the shared copy), so along any execution two reads of
Stats are componentwise ordered; and once the loop has terminated no
further step changes the snapshot, so Stats keeps returning the last
accumulated value after shutdown. -/
theorem C7_stats_monotone (Z : ZlibOracle) (s s' : LoopState) :
    (ReachableFrom Z s s' → TracerStats.le (statsRead s) (statsRead s')) ∧
    (∀ l : SysLabel, s.terminated = true → Step Z s l s' →
      statsRead s' = statsRead s ∧ s'.terminated = true) := by
  constructor
  · intro hr
    induction hr with
    | refl => exact TracerStats.le_refl _
    | tail _ hs ih => exact TracerStats.le_trans ih (statsShared_le_step hs)
  · intro l ht hs
    cases hs with
    | loop now ev hen =>
        rw [enabledB_terminated s ev ht] at hen
        cases hen
    | senderDone err hb hp => exact ⟨rfl, ht⟩
    | gatherDone ts contribs hg => exact ⟨rfl, ht⟩

theorem C7_stats_monotone_witness :
    (TracerStats.le (statsRead (initState cfgW 100 50))
      (statsRead (initState cfgW 100 50))) ∧
    (statsRead (senderDoneStep
        { initState cfgW 100 50 with terminated := true, senderBusy := true }
        (some SendError.generic)) =
      statsRead { initState cfgW 100 50 with terminated := true, senderBusy := true } ∧
     (senderDoneStep
        { initState cfgW 100 50 with terminated := true, senderBusy := true }
        (some SendError.generic)).terminated = true) := by
  constructor
  · exact (C7_stats_monotone zlibW (initState cfgW 100 50)
      (initState cfgW 100 50)).1 ReachableFrom.refl
  · exact (C7_stats_monotone zlibW
      { initState cfgW 100 50 with terminated := true, senderBusy := true }
      (senderDoneStep
        { initState cfgW 100 50 with terminated := true, senderBusy := true }
        (some SendError.generic))).2
      (SysLabel.senderDone (some SendError.generic)) rfl
      (Step.senderDone _ (some SendError.generic) rfl rfl)

theorem flushedAck_postOpen (Z : ZlibOracle) (p : LoopState × Effects) :
    (postOpen Z p).2.flushedAck = p.2.flushedAck := by
  unfold postOpen postTail
  split
  · rfl
  · split <;> rfl

theorem flushedAck_postSelect (Z : ZlibOracle) (now : Int) (g : Bool) (s : LoopState)
    (eff : Effects) : (postSelect Z now g s eff).2.flushedAck = eff.flushedAck := by
  unfold postSelect
  rw [flushedAck_postOpen]
  split <;> rfl

theorem sentMetricsAck_postOpen (Z : ZlibOracle) (p : LoopState × Effects) :
    (postOpen Z p).2.sentMetricsAck = p.2.sentMetricsAck := by
  unfold postOpen postTail
  split
  · rfl
  · split <;> rfl

theorem sentMetricsAck_postSelect (Z : ZlibOracle) (now : Int) (g : Bool) (s : LoopState)
    (eff : Effects) : (postSelect Z now g s eff).2.sentMetricsAck = eff.sentMetricsAck := by
  unfold postSelect
  rw [sentMetricsAck_postOpen]
  split <;> rfl

theorem logSeverity_postOpen (Z : ZlibOracle) (p : LoopState × Effects) :
    (postOpen Z p).2.logSeverity = p.2.logSeverity := by
  unfold postOpen postTail
  split
  · rfl
  · split <;> rfl

theorem logSeverity_postSelect (Z : ZlibOracle) (now : Int) (g : Bool) (s : LoopState)
    (eff : Effects) : (postSelect Z now g s eff).2.logSeverity = eff.logSeverity := by
  unfold postSelect
  rw [logSeverity_postOpen]
  split <;> rfl

theorem flushedAck_resultBranch (s : LoopState) (err : Option SendError) :
    (resultBranch s err).2.flushedAck = s.flushedPending := by
  unfold resultBranch resultReset resultAckFlush resultAckMetrics mergePair mergeStatsL
    resultAccount
  cases err <;> (repeat' split) <;> simp_all

theorem sentMetricsAck_resultBranch (s : LoopState) (err : Option SendError) :
    (resultBranch s err).2.sentMetricsAck =
      (s.sentMetricsPending && decide (0 < s.rbMetricsets)) := by
  unfold resultBranch resultReset resultAckFlush resultAckMetrics mergePair mergeStatsL
    resultAccount
  cases err <;> (repeat' split) <;> simp_all

theorem logSeverity_resultBranch (s : LoopState) (err : Option SendError) :
    (resultBranch s err).2.logSeverity = (resultAccount s err).2.logSeverity := by
  unfold resultBranch resultReset resultAckFlush resultAckMetrics mergePair
  (repeat' split) <;> rfl

theorem terminated_resultBranch (s : LoopState) (err : Option SendError) :
    (resultBranch s err).1.terminated = s.terminated := by
  unfold resultBranch resultReset resultAckFlush resultAckMetrics mergePair mergeStatsL
    resultAccount
  cases err <;> (repeat' split) <;> rfl

theorem gracePeriod_resultBranch (s : LoopState) (err : Option SendError) :
    (resultBranch s err).1.gracePeriod = (resultAccount s err).1.gracePeriod := by
  unfold resultBranch resultReset resultAckFlush resultAckMetrics mergePair mergeStatsL
  (repeat' split) <;> rfl

theorem statsShared_resultBranch_fail (s : LoopState) (e : SendError) :
    (resultBranch s (some e)).1.statsShared.sendStreamErrors =
      s.statsShared.sendStreamErrors + s.statsLocal.sendStreamErrors + 1 := by
  unfold resultBranch resultReset resultAckFlush resultAckMetrics mergePair mergeStatsL
    resultAccount TracerStats.accumulate
  dsimp only
  repeat' split
  all_goals simp_all [TracerStats.isZero]
  all_goals omega

theorem statsShared_resultBranch_success (s : LoopState) :
    (resultBranch s none).1.statsShared.transactionsSent =
      s.statsShared.transactionsSent + s.statsLocal.transactionsSent + s.rbTransactions ∧
    (resultBranch s none).1.statsShared.spansSent =
      s.statsShared.spansSent + s.statsLocal.spansSent + s.rbSpans ∧
    (resultBranch s none).1.statsShared.errorsSent =
      s.statsShared.errorsSent + s.statsLocal.errorsSent + s.rbErrors := by
  unfold resultBranch resultReset resultAckFlush resultAckMetrics mergePair mergeStatsL
    resultAccount TracerStats.accumulate
  dsimp only
  repeat' split
  all_goals simp_all [TracerStats.isZero]
  all_goals omega

theorem statsShared_resultBranch_fail_sent (s : LoopState) (e : SendError) :
    (resultBranch s (some e)).1.statsShared.transactionsSent =
      s.statsShared.transactionsSent + s.statsLocal.transactionsSent ∧
    (resultBranch s (some e)).1.statsShared.spansSent =
      s.statsShared.spansSent + s.statsLocal.spansSent ∧
    (resultBranch s (some e)).1.statsShared.errorsSent =
      s.statsShared.errorsSent + s.statsLocal.errorsSent := by
  unfold resultBranch resultReset resultAckFlush resultAckMetrics mergePair mergeStatsL
    resultAccount TracerStats.accumulate
  dsimp only
  repeat' split
  all_goals simp_all [TracerStats.isZero]
  all_goals omega

theorem reset_resultBranch (s : LoopState) (err : Option SendError) :
    (resultBranch s err).1.requestActive = false ∧
    (resultBranch s err).1.requestBytesRead = 0 ∧
    (resultBranch s err).1.requestBuf = 0 ∧
    (resultBranch s err).1.rbTransactions = 0 ∧
    (resultBranch s err).1.rbSpans = 0 ∧
    (resultBranch s err).1.rbErrors = 0 ∧
    (resultBranch s err).1.rbMetricsets = 0 ∧
    (resultBranch s err).1.requestTimerActive = false ∧
    (resultBranch s err).1.closeRequest = false ∧
    (resultBranch s err).1.flushRequest = false ∧
    (resultBranch s err).1.reqBufCap = none :=
  ⟨rfl, rfl, rfl, rfl, rfl, rfl, rfl, rfl, rfl, rfl, rfl⟩

/-- C9: every transport send failure is absorbed by the loop: the
send-error counter of the shared stats grows by exactly one, the failure
is logged at debug severity unless it is an HTTP 404 response (remote
rejected, likely version mismatch) which is logged at error severity, no
log line is emitted when no logger is configured, and the loop does not
terminate on a failure. -/
theorem C9_failure_logging (s : LoopState) (e : SendError) :
    (resultBranch s (some e)).1.statsShared.sendStreamErrors =
      s.statsShared.sendStreamErrors + s.statsLocal.sendStreamErrors + 1 ∧
    (resultBranch s (some e)).2.logSeverity =
      (if s.cfg.loggerPresent then
        some (match e with
          | SendError.http 404 => LogSeverity.errorLevel
          | _ => LogSeverity.debug)
       else none) ∧
    (resultBranch s (some e)).1.terminated = s.terminated := by
  refine ⟨statsShared_resultBranch_fail s e, ?_, terminated_resultBranch s (some e)⟩
  rw [logSeverity_resultBranch]
  rfl

/-- C3: after a send failure the grace period escalates by doubling capped
at the configured maximum, the jittered delay computed from the escalated
grace period lies within [previous, previous times 2] scaled by the 0.9 to
1.1 jitter band (and within 1.1 times the cap); the failed send itself is
never delayed - the escalated grace period is what the loop hands to the
send goroutine when it signals the next send - and one success resets the
grace period to the no-delay value -1, for which the goroutine sleeps not
at all. -/
theorem C3_grace_period_escalation (p : Int) (j : ℚ) (s : LoopState) (e : SendError)
    (Z : ZlibOracle) (eff : Effects)
    (hp : 0 < p) (hpmax : p ≤ maxGracePeriod)
    (hj1 : -(1/10 : ℚ) ≤ j) (hj2 : j ≤ (1/10 : ℚ)) :
    (p ≤ nextGracePeriod p ∧ nextGracePeriod p ≤ 2 * p ∧
      nextGracePeriod p ≤ maxGracePeriod) ∧
    ((9/10 : ℚ) * (p : ℚ) ≤ senderDelay (nextGracePeriod p) j ∧
      senderDelay (nextGracePeriod p) j ≤ (11/10 : ℚ) * (2 * (p : ℚ)) ∧
      senderDelay (nextGracePeriod p) j ≤ (11/10 : ℚ) * ((maxGracePeriod : ℚ))) ∧
    (resultBranch s (some e)).1.gracePeriod = nextGracePeriod s.gracePeriod ∧
    (openRequest Z s eff).2.signaledSend = some s.gracePeriod ∧
    (resultBranch s none).1.gracePeriod = -1 ∧
    senderDelay (-1) j = 0 := by
  have hmax : maxGracePeriod = 36 := rfl
  have hngp : nextGracePeriod p = min (2 * p) maxGracePeriod := by
    unfold nextGracePeriod
    rw [if_neg (by omega)]
  have hb1 : p ≤ nextGracePeriod p := by
    rw [hngp]
    exact le_min (by omega) hpmax
  have hb2 : nextGracePeriod p ≤ 2 * p := by
    rw [hngp]
    exact min_le_left _ _
  have hb3 : nextGracePeriod p ≤ maxGracePeriod := by
    rw [hngp]
    exact min_le_right _ _
  have hq0 : 0 < nextGracePeriod p := lt_of_lt_of_le hp hb1
  have hqc1 : (p : ℚ) ≤ ((nextGracePeriod p : Int) : ℚ) := by exact_mod_cast hb1
  have hqc2 : ((nextGracePeriod p : Int) : ℚ) ≤ 2 * (p : ℚ) := by exact_mod_cast hb2
  have hqc3 : ((nextGracePeriod p : Int) : ℚ) ≤ 36 := by
    have := hb3
    rw [hmax] at this
    exact_mod_cast this
  have hpc : (0 : ℚ) < (p : ℚ) := by exact_mod_cast hp
  have hdelay : senderDelay (nextGracePeriod p) j =
      ((nextGracePeriod p : Int) : ℚ) + ((nextGracePeriod p : Int) : ℚ) * j := by
    unfold senderDelay jitterDuration
    rw [if_pos hq0]
  refine ⟨⟨hb1, hb2, hb3⟩, ⟨?_, ?_, ?_⟩, ?_, rfl, ?_, ?_⟩
  · rw [hdelay]
    nlinarith
  · rw [hdelay]
    nlinarith
  · rw [hdelay, hmax]
    push_cast
    nlinarith
  · rw [gracePeriod_resultBranch]
    rfl
  · rw [gracePeriod_resultBranch]
    rfl
  · unfold senderDelay
    rw [if_neg (by omega)]

theorem C3_grace_period_escalation_witness :
    ((4 : Int) ≤ nextGracePeriod 4 ∧ nextGracePeriod 4 ≤ 2 * 4 ∧
      nextGracePeriod 4 ≤ maxGracePeriod) ∧
    ((9/10 : ℚ) * ((4 : Int) : ℚ) ≤ senderDelay (nextGracePeriod 4) (1/20) ∧
      senderDelay (nextGracePeriod 4) (1/20) ≤ (11/10 : ℚ) * (2 * ((4 : Int) : ℚ)) ∧
      senderDelay (nextGracePeriod 4) (1/20) ≤ (11/10 : ℚ) * ((maxGracePeriod : ℚ))) ∧
    (resultBranch (initState cfgW 100 50) (some SendError.generic)).1.gracePeriod =
      nextGracePeriod (initState cfgW 100 50).gracePeriod ∧
    (openRequest zlibW (initState cfgW 100 50) {}).2.signaledSend =
      some (initState cfgW 100 50).gracePeriod ∧
    (resultBranch (initState cfgW 100 50) none).1.gracePeriod = -1 ∧
    senderDelay (-1) (1/20) = 0 :=
  C3_grace_period_escalation 4 (1/20) (initState cfgW 100 50) SendError.generic
    zlibW {} (by norm_num) (by norm_num [maxGracePeriod]) (by norm_num) (by norm_num)

/-- C5 (amended): when an in-flight send returns success, each sent
counter of the shared stats grows by exactly the per-category count
accumulated while streaming the request, the grace period resets to the
no-delay value, a pending forced-flush acknowledgment is delivered, a
pending forced-metrics acknowledgment is delivered exactly when the
request carried at least one metricset (it stays pending otherwise), and
the request lifecycle fully resets to Idle; on failure none of the sent
counters gains the accumulated per-category counts. -/
theorem C5_success_accounting (s : LoopState) (e : SendError) :
    ((resultBranch s none).1.statsShared.transactionsSent =
        s.statsShared.transactionsSent + s.statsLocal.transactionsSent +
          s.rbTransactions ∧
      (resultBranch s none).1.statsShared.spansSent =
        s.statsShared.spansSent + s.statsLocal.spansSent + s.rbSpans ∧
      (resultBranch s none).1.statsShared.errorsSent =
        s.statsShared.errorsSent + s.statsLocal.errorsSent + s.rbErrors) ∧
    (resultBranch s none).1.gracePeriod = -1 ∧
    (resultBranch s none).2.flushedAck = s.flushedPending ∧
    (resultBranch s none).2.sentMetricsAck =
      (s.sentMetricsPending && decide (0 < s.rbMetricsets)) ∧
    ((resultBranch s none).1.requestActive = false ∧
      (resultBranch s none).1.requestBytesRead = 0 ∧
      (resultBranch s none).1.requestBuf = 0 ∧
      (resultBranch s none).1.rbTransactions = 0 ∧
      (resultBranch s none).1.rbSpans = 0 ∧
      (resultBranch s none).1.rbErrors = 0 ∧
      (resultBranch s none).1.rbMetricsets = 0 ∧
      (resultBranch s none).1.requestTimerActive = false) ∧
    ((resultBranch s (some e)).1.statsShared.transactionsSent =
        s.statsShared.transactionsSent + s.statsLocal.transactionsSent ∧
      (resultBranch s (some e)).1.statsShared.spansSent =
        s.statsShared.spansSent + s.statsLocal.spansSent ∧
      (resultBranch s (some e)).1.statsShared.errorsSent =
        s.statsShared.errorsSent + s.statsLocal.errorsSent) := by
  obtain ⟨r1, r2, r3, r4, r5, r6, r7, r8, _⟩ := reset_resultBranch s none
  exact ⟨statsShared_resultBranch_success s,
    by rw [gracePeriod_resultBranch]; rfl,
    flushedAck_resultBranch s none,
    sentMetricsAck_resultBranch s none,
    ⟨r1, r2, r3, r4, r5, r6, r7, r8⟩,
    statsShared_resultBranch_fail_sent s e⟩

/-- C4 (amended): a Flush that finds no active request and both buffers
empty after draining the ingestion channel is acknowledged immediately and
changes nothing; otherwise the request is marked for closing, and the
pending flush acknowledgment is delivered at the next deposited send
result - whether that result is a success or a failure. -/
theorem C4_flush_acknowledgment (Z : ZlibOracle) (now : Int) (s : LoopState)
    (err : Option SendError) :
    ((s.requestActive = false ∧ s.buffer.blocks = [] ∧ s.metricsBuffer.blocks = []) →
      (forceFlushAfterDrain Z now s).2.flushedAck = true ∧
      (forceFlushAfterDrain Z now s).1 = s) ∧
    (¬(s.requestActive = false ∧ s.buffer.blocks = [] ∧ s.metricsBuffer.blocks = []) →
      forceFlushAfterDrain Z now s =
        postSelect Z now false { s with closeRequest := true } {}) ∧
    (s.flushedPending = true →
      (loopStep Z now s (LoopEvent.result err)).2.flushedAck = true) := by
  refine ⟨?_, ?_, ?_⟩
  · intro h
    unfold forceFlushAfterDrain
    rw [if_pos h]
    exact ⟨rfl, rfl⟩
  · intro h
    unfold forceFlushAfterDrain
    rw [if_neg h]
  · intro h
    show (postSelect Z now false (resultBranch s err).1 (resultBranch s err).2).2.flushedAck
      = true
    rw [flushedAck_postSelect, flushedAck_resultBranch]
    exact h

theorem C4_flush_acknowledgment_witness :
    ((forceFlushAfterDrain zlibW 0
        { initState cfgW 100 50 with flushedPending := true }).2.flushedAck = true ∧
      (forceFlushAfterDrain zlibW 0
        { initState cfgW 100 50 with flushedPending := true }).1 =
        { initState cfgW 100 50 with flushedPending := true }) ∧
    (loopStep zlibW 0 { initState cfgW 100 50 with flushedPending := true }
      (LoopEvent.result none)).2.flushedAck = true := by
  refine ⟨(C4_flush_acknowledgment zlibW 0
      { initState cfgW 100 50 with flushedPending := true } none).1
      ⟨rfl, rfl, rfl⟩, ?_⟩
  exact (C4_flush_acknowledgment zlibW 0
      { initState cfgW 100 50 with flushedPending := true } none).2.2 rfl

/-- A concrete ingested error record used by the counterexample traces. -/
def eErrW : IngestEvent := ⟨IngestKind.error, 5, 4⟩

/-- A concrete ingested transaction record used by the counterexample
traces. -/
def eTxW : IngestEvent := ⟨IngestKind.transaction, 5, 4⟩

/-- Start state of the counterexample traces. -/
def s0W : LoopState := initState cfgW 100 50

/-- After ingesting one error: a request is opened and in flight, the
error block is streamed and the stream flushed. -/
def s1W : LoopState := (loopStep zlibW 0 s0W (LoopEvent.ingest eErrW)).1

/-- After a Flush call while the request is active: the flush
acknowledgment is pending and the request is closed off. -/
def s2W : LoopState := (loopStep zlibW 0 s1W (LoopEvent.forceFlush [])).1

/-- After the in-flight send finishes with a transport failure. -/
def s3W : LoopState := senderDoneStep s2W (some SendError.generic)

theorem reach_s3W : ReachableFrom zlibW s0W s3W := by
  have h1 : Step zlibW s0W
      (SysLabel.loopEv 0 (LoopEvent.ingest eErrW)
        (loopStep zlibW 0 s0W (LoopEvent.ingest eErrW)).2) s1W :=
    Step.loop s0W 0 (LoopEvent.ingest eErrW) (by decide)
  have h2 : Step zlibW s1W
      (SysLabel.loopEv 0 (LoopEvent.forceFlush [])
        (loopStep zlibW 0 s1W (LoopEvent.forceFlush [])).2) s2W :=
    Step.loop s1W 0 (LoopEvent.forceFlush []) (by decide)
  have h3 : Step zlibW s2W (SysLabel.senderDone (some SendError.generic)) s3W :=
    Step.senderDone s2W (some SendError.generic) (by decide) (by decide)
  exact ReachableFrom.tail (ReachableFrom.tail (ReachableFrom.tail
    ReachableFrom.refl h1) h2) h3

/-- C4 counterexample: the claim says the pending flush acknowledgment is
deposited once the in-progress request reaches the Completed state (or
immediately when nothing was buffered), but on the reachable trace
ingest-error, Flush, transport failure the acknowledgment is delivered at
a Failed result: the loop deposits it at the next send result whether or
not the request completed. -/
theorem C4_counterexample :
    ¬ (∀ (s : LoopState) (now : Int) (ev : LoopEvent) (eff : Effects) (s' : LoopState),
        ReachableFrom zlibW s0W s →
        Step zlibW s (SysLabel.loopEv now ev eff) s' →
        eff.flushedAck = true →
        (∃ q, ev = LoopEvent.forceFlush q) ∨ ev = LoopEvent.result none) := by
  intro hclaim
  have hstep : Step zlibW s3W
      (SysLabel.loopEv 0 (LoopEvent.result (some SendError.generic))
        (loopStep zlibW 0 s3W (LoopEvent.result (some SendError.generic))).2)
      (loopStep zlibW 0 s3W (LoopEvent.result (some SendError.generic))).1 :=
    Step.loop s3W 0 (LoopEvent.result (some SendError.generic)) (by decide)
  have hdisj := hclaim s3W 0 (LoopEvent.result (some SendError.generic)) _ _
    reach_s3W hstep (by decide)
  rcases hdisj with ⟨q, hq⟩ | hq
  · cases hq
  · exact absurd hq (by decide)

/-- After ingesting one transaction: a request is opened and in flight
with the transaction block streamed (no metricset in it). -/
def t1W : LoopState := (loopStep zlibW 0 s0W (LoopEvent.ingest eTxW)).1

/-- After a SendMetrics call while that request is active: the forced
metrics acknowledgment is pending, a gather cycle starts, and the request
still carries no metricset. -/
def t2W : LoopState := (loopStep zlibW 0 t1W LoopEvent.forceSendMetrics).1

/-- After the in-flight send finishes successfully. -/
def t3W : LoopState := senderDoneStep t2W none

theorem reach_t3W : ReachableFrom zlibW s0W t3W := by
  have h1 : Step zlibW s0W
      (SysLabel.loopEv 0 (LoopEvent.ingest eTxW)
        (loopStep zlibW 0 s0W (LoopEvent.ingest eTxW)).2) t1W :=
    Step.loop s0W 0 (LoopEvent.ingest eTxW) (by decide)
  have h2 : Step zlibW t1W
      (SysLabel.loopEv 0 LoopEvent.forceSendMetrics
        (loopStep zlibW 0 t1W LoopEvent.forceSendMetrics).2) t2W :=
    Step.loop t1W 0 LoopEvent.forceSendMetrics (by decide)
  have h3 : Step zlibW t2W (SysLabel.senderDone none) t3W :=
    Step.senderDone t2W none (by decide) (by decide)
  exact ReachableFrom.tail (ReachableFrom.tail (ReachableFrom.tail
    ReachableFrom.refl h1) h2) h3

/-- C5 counterexample: the claim says that on success any pending
forced-metrics acknowledgment is delivered, but on the reachable trace
ingest-transaction, SendMetrics, successful send the finished request
carried zero metricsets, and the loop delivers the forced-metrics
acknowledgment only when the request carried at least one metricset - so
the acknowledgment stays pending at this success. -/
theorem C5_counterexample :
    ¬ (∀ (s : LoopState) (now : Int) (eff : Effects) (s' : LoopState),
        ReachableFrom zlibW s0W s →
        Step zlibW s (SysLabel.loopEv now (LoopEvent.result none) eff) s' →
        s.sentMetricsPending = true →
        eff.sentMetricsAck = true) := by
  intro hclaim
  have hstep : Step zlibW t3W
      (SysLabel.loopEv 0 (LoopEvent.result none)
        (loopStep zlibW 0 t3W (LoopEvent.result none)).2)
      (loopStep zlibW 0 t3W (LoopEvent.result none)).1 :=
    Step.loop t3W 0 (LoopEvent.result none) (by decide)
  have := hclaim t3W 0 _ _ reach_t3W hstep (by decide)
  exact absurd this (by decide)

theorem streamLoopF_decompose (n : Nat) (s : LoopState) :
    ∃ pm pt : List Block,
      s.metricsBuffer.blocks = pm ++ (streamLoopF n s).metricsBuffer.blocks ∧
      s.buffer.blocks = pt ++ (streamLoopF n s).buffer.blocks ∧
      ((streamLoopF n s).metricsBuffer.blocks = [] ∨ pt = []) ∧
      (streamLoopF n s).requestBuf =
        s.requestBuf + ((pm ++ pt).map Block.compSize).sum ∧
      (streamLoopF n s).uncompressedWritten =
        s.uncompressedWritten + ((pm ++ pt).map (fun b => b.size + 1)).sum ∧
      (streamLoopF n s).rbMetricsets = s.rbMetricsets + pm.length ∧
      (streamLoopF n s).closeRequest =
        (s.closeRequest || (s.sentMetricsPending && !pm.isEmpty)) ∧
      ((pm = [] ∧ pt = []) ∨ s.requestBytesRead + s.requestBuf < s.cfg.requestSize) := by
  induction n generalizing s with
  | zero =>
    refine ⟨[], [], by simp [streamLoopF], by simp [streamLoopF], Or.inr rfl,
      by simp [streamLoopF], by simp [streamLoopF], by simp [streamLoopF],
      by simp [streamLoopF], Or.inl ⟨rfl, rfl⟩⟩
  | succ n ih =>
    unfold streamLoopF
    split
    · rename_i hg
      split
      · rename_i b rest heq
        obtain ⟨pm1, pt1, e1, e2, e3, e4, e5, e6, e7, _⟩ := ih
          { s with
            metricsBuffer := { s.metricsBuffer with blocks := rest },
            requestBuf := s.requestBuf + b.compSize,
            uncompressedWritten := s.uncompressedWritten + b.size + 1,
            rbMetricsets := s.rbMetricsets + 1,
            zlibFlushed := false,
            closeRequest := s.closeRequest || s.sentMetricsPending }
        refine ⟨b :: pm1, pt1, ?_, e2, e3, ?_, ?_, ?_, ?_, Or.inr hg⟩
        · rw [heq, List.cons_append]
          exact congrArg _ e1
        · rw [e4]
          simp only [List.cons_append, List.map_cons, List.sum_cons]
          omega
        · rw [e5]
          simp only [List.cons_append, List.map_cons, List.sum_cons]
          omega
        · rw [e6]
          simp only [List.length_cons]
          omega
        · rw [e7]
          cases s.closeRequest <;> cases s.sentMetricsPending <;> simp
      · rename_i heq
        split
        · rename_i hb
          refine ⟨[], [], by simp, by simp [hb], Or.inr rfl, by simp, by simp, by simp,
            by simp, Or.inl ⟨rfl, rfl⟩⟩
        · rename_i b rest hb
          obtain ⟨pm1, pt1, e1, e2, e3, e4, e5, e6, e7, _⟩ := ih
            { s with
              buffer := { s.buffer with blocks := rest },
              requestBuf := s.requestBuf + b.compSize,
              uncompressedWritten := s.uncompressedWritten + b.size + 1,
              rbTransactions :=
                s.rbTransactions + (if b.tag = BlockTag.transaction then 1 else 0),
              rbSpans := s.rbSpans + (if b.tag = BlockTag.span then 1 else 0),
              rbErrors := s.rbErrors + (if b.tag = BlockTag.error then 1 else 0),
              zlibFlushed := false }
          have e1' : s.metricsBuffer.blocks = pm1 ++ _ := e1
          rw [heq] at e1'
          obtain ⟨hpm1, hfmB⟩ := List.append_eq_nil.mp e1'.symm
          subst hpm1
          refine ⟨[], b :: pt1, ?_, ?_, Or.inl hfmB, ?_, ?_, ?_, ?_, Or.inr hg⟩
          · rw [heq, hfmB]
            rfl
          · rw [hb, List.cons_append]
            exact congrArg _ e2
          · rw [e4]
            simp only [List.nil_append, List.cons_append, List.map_cons, List.sum_cons]
            omega
          · rw [e5]
            simp only [List.nil_append, List.cons_append, List.map_cons, List.sum_cons]
            omega
          · rw [e6]
          · rw [e7]
    · refine ⟨[], [], by simp, by simp, Or.inr rfl, by simp, by simp, by simp,
        by simp, Or.inl ⟨rfl, rfl⟩⟩

theorem streamLoopF_drains (n : Nat) (s : LoopState) (hn : blocksTotal s ≤ n) :
    s.cfg.requestSize ≤ (streamLoopF n s).requestBytesRead + (streamLoopF n s).requestBuf ∨
    ((streamLoopF n s).metricsBuffer.blocks = [] ∧ (streamLoopF n s).buffer.blocks = []) := by
  induction n generalizing s with
  | zero =>
    unfold blocksTotal at hn
    right
    constructor
    · show s.metricsBuffer.blocks = []
      cases hm : s.metricsBuffer.blocks with
      | nil => rfl
      | cons b l =>
        exfalso
        rw [hm] at hn
        simp only [List.length_cons] at hn
        omega
    · show s.buffer.blocks = []
      cases hb : s.buffer.blocks with
      | nil => rfl
      | cons b l =>
        exfalso
        rw [hb] at hn
        simp only [List.length_cons] at hn
        omega
  | succ n ih =>
    unfold streamLoopF
    split
    · rename_i hg
      split
      · rename_i b rest heq
        refine ih { s with
            metricsBuffer := { s.metricsBuffer with blocks := rest },
            requestBuf := s.requestBuf + b.compSize,
            uncompressedWritten := s.uncompressedWritten + b.size + 1,
            rbMetricsets := s.rbMetricsets + 1,
            zlibFlushed := false,
            closeRequest := s.closeRequest || s.sentMetricsPending } ?_
        show rest.length + s.buffer.blocks.length ≤ n
        unfold blocksTotal at hn
        rw [heq] at hn
        simp only [List.length_cons] at hn
        omega
      · rename_i heq
        split
        · rename_i hb
          right
          exact ⟨heq, hb⟩
        · rename_i b rest hb
          refine ih { s with
              buffer := { s.buffer with blocks := rest },
              requestBuf := s.requestBuf + b.compSize,
              uncompressedWritten := s.uncompressedWritten + b.size + 1,
              rbTransactions :=
                s.rbTransactions + (if b.tag = BlockTag.transaction then 1 else 0),
              rbSpans := s.rbSpans + (if b.tag = BlockTag.span then 1 else 0),
              rbErrors := s.rbErrors + (if b.tag = BlockTag.error then 1 else 0),
              zlibFlushed := false } ?_
          show s.metricsBuffer.blocks.length + rest.length ≤ n
          unfold blocksTotal at hn
          rw [hb] at hn
          simp only [List.length_cons] at hn
          omega
    · rename_i hg
      left
      omega

theorem streamClose_fields (s2 : LoopState) :
    (streamClose s2).metricsBuffer = s2.metricsBuffer ∧
    (streamClose s2).buffer = s2.buffer ∧
    (streamClose s2).requestBuf = s2.requestBuf ∧
    (streamClose s2).uncompressedWritten = s2.uncompressedWritten ∧
    (streamClose s2).requestBytesRead = s2.requestBytesRead ∧
    (streamClose s2).rbMetricsets = s2.rbMetricsets ∧
    (streamClose s2).cfg = s2.cfg := by
  unfold streamClose
  split <;> exact ⟨rfl, rfl, rfl, rfl, rfl, rfl, rfl⟩

theorem streamClose_closeRequest (s2 : LoopState) :
    (streamClose s2).closeRequest =
      (s2.closeRequest ||
        decide (s2.requestBytesRead + s2.requestBuf ≥ s2.cfg.requestSize)) := by
  unfold streamClose
  split
  · rename_i h
    rw [h]
    rfl
  · rename_i h
    rw [Bool.not_eq_true] at h
    rw [h]
    rfl

/-- C2 (amended): the streaming phase pulls whole blocks, preferring the
metrics buffer (a trace block is pulled only once the metrics buffer is
drained), starts only while requestBytesRead + requestBuf.Len() is below
cfg.requestSize, and its final closing mark is exactly: already marked, or
a forced-metrics acknowledgment is pending and a metricset was written, or
the quantity requestBytesRead + requestBuf.Len() reached cfg.requestSize.
That quantity counts bytes emitted by the compressor into requestBuf
(requestBuf grows by the compressed output sizes of the pulled blocks)
while the uncompressed bytes handed to the compressor are a different
tally - so the ceiling check measures compressed, not uncompressed,
bytes. -/
theorem C2_streaming_measure (s : LoopState) :
    ∃ pm pt : List Block,
      s.metricsBuffer.blocks = pm ++ (streamPhase s).metricsBuffer.blocks ∧
      s.buffer.blocks = pt ++ (streamPhase s).buffer.blocks ∧
      ((streamPhase s).metricsBuffer.blocks = [] ∨ pt = []) ∧
      (streamPhase s).requestBuf =
        s.requestBuf + ((pm ++ pt).map Block.compSize).sum ∧
      (streamPhase s).uncompressedWritten =
        s.uncompressedWritten + ((pm ++ pt).map (fun b => b.size + 1)).sum ∧
      (streamPhase s).requestBytesRead = s.requestBytesRead ∧
      (streamPhase s).rbMetricsets = s.rbMetricsets + pm.length ∧
      (streamPhase s).closeRequest =
        (s.closeRequest || (s.sentMetricsPending && !pm.isEmpty) ||
          decide (s.requestBytesRead + (streamPhase s).requestBuf ≥
            s.cfg.requestSize)) ∧
      ((pm = [] ∧ pt = []) ∨ s.requestBytesRead + s.requestBuf < s.cfg.requestSize) ∧
      ((streamPhase s).closeRequest = false →
        (streamPhase s).metricsBuffer.blocks = [] ∧
        (streamPhase s).buffer.blocks = []) := by
  obtain ⟨pm, pt, e1, e2, e3, e4, e5, e6, e7, e8⟩ :=
    streamLoopF_decompose (blocksTotal s) s
  have hf := streamLoopF_frame (blocksTotal s) s
  have hrbr : (streamLoopF (blocksTotal s) s).requestBytesRead = s.requestBytesRead :=
    hf.2.2.2.2.1
  have hcfg : (streamLoopF (blocksTotal s) s).cfg = s.cfg := hf.2.2.2.2.2.1
  have hd := streamLoopF_drains (blocksTotal s) s (le_refl _)
  obtain ⟨hc1, hc2, hc3, hc4, hc5, hc6, hc7⟩ :=
    streamClose_fields (streamLoopF (blocksTotal s) s)
  have hcr := streamClose_closeRequest (streamLoopF (blocksTotal s) s)
  unfold streamPhase
  refine ⟨pm, pt, ?_, ?_, ?_, ?_, ?_, ?_, ?_, ?_, e8, ?_⟩
  · rw [hc1]
    exact e1
  · rw [hc2]
    exact e2
  · rw [hc1]
    exact e3
  · rw [hc3]
    exact e4
  · rw [hc4]
    exact e5
  · rw [hc5]
    exact hrbr
  · rw [hc6]
    rw [e6]
  · rw [hcr, e7, hc3, hrbr, hcfg]
  · intro h
    rw [hcr] at h
    simp only [Bool.or_eq_false_iff, decide_eq_false_iff_not, not_le] at h
    obtain ⟨hfc, hsize⟩ := h
    rw [hrbr, hcfg] at hsize
    cases hd with
    | inl hle =>
        rw [hrbr] at hle
        omega
    | inr hempty =>
        rw [hc1, hc2]
        exact hempty

/-- Configuration for the C2 counterexample: request-size ceiling 50. -/
def cfgC2 : TracerConfigM := ⟨50, 1, 0, false, []⟩

/-- State for the C2 counterexample: two buffered transaction blocks, each
100 uncompressed bytes that compress to 10 emitted bytes. -/
def cexC2 : LoopState :=
  { initState cfgC2 1000 1000 with
    buffer := ⟨1000, [⟨BlockTag.transaction, 100, 10⟩,
                      ⟨BlockTag.transaction, 100, 10⟩]⟩ }

/-- C2 counterexample: the claim says the quantity compared against
cfg.requestSize measures uncompressed bytes, marking the request for
closing exactly when the accumulated uncompressed size reaches the
ceiling.  On this input the loop pulls both 100-byte blocks (202 > 50
uncompressed bytes written) yet does not mark the request for closing,
because requestBytesRead + requestBuf.Len() counts the 20 compressed
output bytes, which stay below the 50-byte ceiling; the variant that
follows the words of the spec stops after one block and marks closing. -/
theorem C2_counterexample :
    (streamPhase cexC2).closeRequest = false ∧
    (streamPhase cexC2).buffer.blocks = [] ∧
    (streamPhase cexC2).requestBuf = 20 ∧
    (streamPhase cexC2).uncompressedWritten = 202 ∧
    cexC2.cfg.requestSize ≤ (streamPhase cexC2).uncompressedWritten ∧
    (specStreamPhaseU cexC2).closeRequest = true ∧
    (specStreamPhaseU cexC2).buffer.blocks = [⟨BlockTag.transaction, 100, 10⟩] := by
  decide

theorem C2_streaming_measure_witness :
    ∃ pm pt : List Block,
      cexC2.metricsBuffer.blocks = pm ++ (streamPhase cexC2).metricsBuffer.blocks ∧
      cexC2.buffer.blocks = pt ++ (streamPhase cexC2).buffer.blocks ∧
      ((streamPhase cexC2).metricsBuffer.blocks = [] ∨ pt = []) ∧
      (streamPhase cexC2).requestBuf =
        cexC2.requestBuf + ((pm ++ pt).map Block.compSize).sum ∧
      (streamPhase cexC2).uncompressedWritten =
        cexC2.uncompressedWritten + ((pm ++ pt).map (fun b => b.size + 1)).sum ∧
      (streamPhase cexC2).requestBytesRead = cexC2.requestBytesRead ∧
      (streamPhase cexC2).rbMetricsets = cexC2.rbMetricsets + pm.length ∧
      (streamPhase cexC2).closeRequest =
        (cexC2.closeRequest || (cexC2.sentMetricsPending && !pm.isEmpty) ||
          decide (cexC2.requestBytesRead + (streamPhase cexC2).requestBuf ≥
            cexC2.cfg.requestSize)) ∧
      ((pm = [] ∧ pt = []) ∨
        cexC2.requestBytesRead + cexC2.requestBuf < cexC2.cfg.requestSize) ∧
      ((streamPhase cexC2).closeRequest = false →
        (streamPhase cexC2).metricsBuffer.blocks = [] ∧
        (streamPhase cexC2).buffer.blocks = []) :=
  C2_streaming_measure cexC2

/-- Program counter of one Tracer.Close caller (src/tracer.go lines 328 to
335): about to run the select, about to run close(t.closing) after taking
the default branch, waiting on the closed channel, or returned. -/
inductive ClosePc where
  | start
  | atClose
  | waiting
  | finished
deriving DecidableEq, Repr

/-- Interleaving state of two Tracer.Close callers and the two lifecycle
channels.  In Go, closing an already-closed channel panics; `panicked`
records whether a close(t.closing) executed while the channel was already
closed. -/
structure CloseSys where
  closingClosed : Bool
  closedClosed : Bool
  a : ClosePc
  b : ClosePc
  panicked : Bool
deriving DecidableEq, Repr

/-- Interleaved small steps of two Close callers plus the loop closing the
closed channel on exit.  The select with a default branch is one atomic
check - it commits to receive when closing is already closed, otherwise it
takes the default - but the close(t.closing) that follows the default is a
separate step, so two callers can both pass the check before either
closes. -/
inductive CloseStep : CloseSys → CloseSys → Prop where
  | selectA (s : CloseSys) (h : s.a = ClosePc.start) :
      CloseStep s { s with
        a := if s.closingClosed then ClosePc.waiting else ClosePc.atClose }
  | closeA (s : CloseSys) (h : s.a = ClosePc.atClose) :
      CloseStep s { s with closingClosed := true,
                           panicked := s.panicked || s.closingClosed,
                           a := ClosePc.waiting }
  | returnA (s : CloseSys) (h : s.a = ClosePc.waiting) (hc : s.closedClosed = true) :
      CloseStep s { s with a := ClosePc.finished }
  | selectB (s : CloseSys) (h : s.b = ClosePc.start) :
      CloseStep s { s with
        b := if s.closingClosed then ClosePc.waiting else ClosePc.atClose }
  | closeB (s : CloseSys) (h : s.b = ClosePc.atClose) :
      CloseStep s { s with closingClosed := true,
                           panicked := s.panicked || s.closingClosed,
                           b := ClosePc.waiting }
  | returnB (s : CloseSys) (h : s.b = ClosePc.waiting) (hc : s.closedClosed = true) :
      CloseStep s { s with b := ClosePc.finished }
  | loopExit (s : CloseSys) (h : s.closingClosed = true) :
      CloseStep s { s with closedClosed := true }

/-- States reachable in the Close interleaving model. -/
inductive CloseReach (s0 : CloseSys) : CloseSys → Prop where
  | refl : CloseReach s0 s0
  | tail {s s' : CloseSys} : CloseReach s0 s → CloseStep s s' → CloseReach s0 s'

/-- Two Close callers starting concurrently on an open tracer. -/
def closeInit : CloseSys := ⟨false, false, ClosePc.start, ClosePc.start, false⟩

/-- C6 counterexample: the claim says a second or concurrent Close call
does not panic, but in the interleaving where both callers pass the
select-default check before either closes the channel, the second
close(t.closing) hits an already-closed channel, which panics in Go: a
state with panicked set is reachable from two concurrent Close calls. -/
theorem C6_counterexample :
    ¬ (∀ s : CloseSys, CloseReach closeInit s → s.panicked = false) := by
  intro hclaim
  have r1 : CloseReach closeInit
      { closeInit with
        a := if closeInit.closingClosed then ClosePc.waiting else ClosePc.atClose } :=
    CloseReach.tail CloseReach.refl (CloseStep.selectA closeInit rfl)
  have r2 := CloseReach.tail r1 (CloseStep.selectB _ (by decide))
  have r3 := CloseReach.tail r2 (CloseStep.closeA _ (by decide))
  have r4 := CloseReach.tail r3 (CloseStep.closeB _ (by decide))
  have hp := hclaim _ r4
  exact absurd hp (by decide)

/-- Invariant for a (sequential) later Close call: the closing channel is
already closed, no caller is at the close instruction, nothing has
panicked, and a finished caller has seen the closed channel closed. -/
def CloseInvSeq (s : CloseSys) : Prop :=
  s.panicked = false ∧ s.closingClosed = true ∧
  s.a ≠ ClosePc.atClose ∧ s.b ≠ ClosePc.atClose ∧
  (s.b = ClosePc.finished → s.closedClosed = true)

/-- C6 (amended): a second, non-overlapping Close call cannot panic: once
the closing channel is closed, every further Close select commits to the
receive branch, never reaching close(t.closing), and it returns only after
the closed channel is closed, that is, after the loop has exited.  (Two
overlapping calls can race to the close and panic; see the
counterexample.)  Moreover, when the loop services the closing signal it
cancels the shared send context and closes the read side of the in-flight
stream with io.EOF - informing the transport of a graceful end-of-stream -
and terminates. -/
theorem C6_close_idempotent (s s' : CloseSys) (Z : ZlibOracle) (now : Int)
    (sl : LoopState) :
    (CloseInvSeq s → CloseStep s s' → CloseInvSeq s') ∧
    (∀ s0 st : CloseSys, CloseInvSeq s0 → CloseReach s0 st →
      st.panicked = false ∧ (st.b = ClosePc.finished → st.closedClosed = true)) ∧
    ((loopStep Z now sl LoopEvent.closing).2.canceledContext = true ∧
      (loopStep Z now sl LoopEvent.closing).2.closedReadEOF = true ∧
      (loopStep Z now sl LoopEvent.closing).1.terminated = true) := by
  have hstep : ∀ u u' : CloseSys, CloseInvSeq u → CloseStep u u' → CloseInvSeq u' := by
    intro u u' hinv hs
    obtain ⟨h1, h2, h3, h4, h5⟩ := hinv
    cases hs with
    | selectA h =>
        refine ⟨h1, h2, ?_, h4, h5⟩
        show (if u.closingClosed then ClosePc.waiting else ClosePc.atClose) ≠
          ClosePc.atClose
        rw [h2]
        simp
    | closeA h => exact absurd h h3
    | returnA h hc => exact ⟨h1, h2, by simp, h4, h5⟩
    | selectB h =>
        refine ⟨h1, h2, h3, ?_, ?_⟩
        · show (if u.closingClosed then ClosePc.waiting else ClosePc.atClose) ≠
            ClosePc.atClose
          rw [h2]
          simp
        · show (if u.closingClosed then ClosePc.waiting else ClosePc.atClose) =
            ClosePc.finished → _
          rw [h2]
          intro hx
          cases hx
    | closeB h => exact absurd h h4
    | returnB h hc => exact ⟨h1, h2, h3, by simp, fun _ => hc⟩
    | loopExit h => exact ⟨h1, h2, h3, h4, fun _ => rfl⟩
  refine ⟨hstep s s', ?_, rfl, rfl, rfl⟩
  intro s0 st hinv hr
  have : CloseInvSeq st := by
    induction hr with
    | refl => exact hinv
    | tail _ hs ih => exact hstep _ _ ih hs
  exact ⟨this.1, this.2.2.2.2⟩

theorem C6_close_idempotent_witness :
    (CloseInvSeq ⟨true, true, ClosePc.finished, ClosePc.start, false⟩ ∧
      (⟨true, true, ClosePc.finished, ClosePc.start, false⟩ : CloseSys).panicked =
        false) ∧
    (loopStep zlibW 0 (initState cfgW 100 50) LoopEvent.closing).2.canceledContext =
      true := by
  have hinv : CloseInvSeq ⟨true, true, ClosePc.finished, ClosePc.start, false⟩ := by
    refine ⟨rfl, rfl, by simp, by simp, fun _ => rfl⟩
  refine ⟨⟨hinv, ?_⟩, ?_⟩
  · exact ((C6_close_idempotent ⟨true, true, ClosePc.finished, ClosePc.start, false⟩
      ⟨true, true, ClosePc.finished, ClosePc.start, false⟩ zlibW 0
      (initState cfgW 100 50)).2.1 _ _ hinv CloseReach.refl).1
  · exact (C6_close_idempotent ⟨true, true, ClosePc.finished, ClosePc.start, false⟩
      ⟨true, true, ClosePc.finished, ClosePc.start, false⟩ zlibW 0
      (initState cfgW 100 50)).2.2.1

/-- Externally visible tracer state: the atomic active flag, the two
lifecycle channels, whether the loop goroutine exists, and the shared
stats (src/tracer.go Tracer fields). -/
structure TracerPub where
  activeFlag : Bool
  closingClosed : Bool
  closedClosed : Bool
  loopRunning : Bool
  stats : TracerStats
deriving DecidableEq, Repr

/-- Construction (newTracer, src/tracer.go lines 263 to 308): with
opts.active false the active flag is cleared, the closed channel is closed
immediately, and no loop goroutine is started; otherwise the loop is
started. -/
def newTracerPub (active : Bool) : TracerPub :=
  if active then ⟨true, false, false, true, {}⟩
  else ⟨false, false, true, false, {}⟩

/-- Tracer.Active (src/tracer.go lines 355 to 357). -/
def activePub (t : TracerPub) : Bool := t.activeFlag

/-- How a select between handing work to the loop and the lifecycle
channels resolves. -/
inductive SelectOutcome where
  | immediateReturn
  | handedToLoop
  | blocked
deriving DecidableEq, Repr

/-- Tracer.Flush entry select (src/tracer.go lines 340 to 351): the send
on forceFlush is only ready when the loop goroutine exists to receive it;
otherwise the closed branch returns immediately once closed is closed.
When the loop runs, both branches may be ready and the model resolves in
favor of the loop; for a loop-less tracer the resolution is exact. -/
def flushPub (t : TracerPub) : SelectOutcome × TracerPub :=
  if t.loopRunning then (SelectOutcome.handedToLoop, t)
  else if t.closedClosed then (SelectOutcome.immediateReturn, t)
  else (SelectOutcome.blocked, t)

/-- Tracer.SendMetrics entry select (src/tracer.go lines 493 to 504), same
shape as Flush. -/
def sendMetricsPub (t : TracerPub) : SelectOutcome × TracerPub :=
  if t.loopRunning then (SelectOutcome.handedToLoop, t)
  else if t.closedClosed then (SelectOutcome.immediateReturn, t)
  else (SelectOutcome.blocked, t)

/-- Tracer.sendConfigCommand (src/tracer.go lines 443 to 449): the command
is only received when the loop runs; otherwise a closed closing or closed
channel returns immediately without effect. -/
def sendConfigCommandPub (t : TracerPub) : SelectOutcome × TracerPub :=
  if t.loopRunning then (SelectOutcome.handedToLoop, t)
  else if t.closingClosed || t.closedClosed then (SelectOutcome.immediateReturn, t)
  else (SelectOutcome.blocked, t)

/-- First half of Tracer.Close (src/tracer.go lines 329 to 333): close the
closing channel unless already closed. -/
def closePubMark (t : TracerPub) : TracerPub :=
  if t.closingClosed then t else { t with closingClosed := true }

/-- Tracer.Close (src/tracer.go lines 328 to 335): mark closing, then wait
on the closed channel - immediate when closed is already closed. -/
def closePub (t : TracerPub) : SelectOutcome × TracerPub :=
  if (closePubMark t).closedClosed then (SelectOutcome.immediateReturn, closePubMark t)
  else (SelectOutcome.blocked, closePubMark t)

/-- Tracer.Stats (src/tracer.go lines 508 to 513): snapshot of the shared
stats under the stats lock. -/
def statsPub (t : TracerPub) : TracerStats := t.stats

/-- C10: a tracer constructed inactive has its closed channel closed at
construction and no loop goroutine; Active reports false; Flush,
SendMetrics and config commands return immediately without blocking and
leave the state unchanged; Close returns immediately (it only marks the
closing channel, starting or touching no loop, buffer or request state);
and Stats returns the zero snapshot. -/
theorem C10_inactive_tracer :
    (newTracerPub false).closedClosed = true ∧
    (newTracerPub false).loopRunning = false ∧
    activePub (newTracerPub false) = false ∧
    flushPub (newTracerPub false) = (SelectOutcome.immediateReturn, newTracerPub false) ∧
    sendMetricsPub (newTracerPub false) =
      (SelectOutcome.immediateReturn, newTracerPub false) ∧
    sendConfigCommandPub (newTracerPub false) =
      (SelectOutcome.immediateReturn, newTracerPub false) ∧
    (closePub (newTracerPub false)).1 = SelectOutcome.immediateReturn ∧
    (closePub (newTracerPub false)).2.loopRunning = false ∧
    (closePub (newTracerPub false)).2.stats = (newTracerPub false).stats ∧
    activePub (closePub (newTracerPub false)).2 = false ∧
    statsPub (newTracerPub false) = {} := by
  decide
